import Mathlib

/-!
# TechTap — verification of the NDEF codec and the tag-operation transports

Shallow embedding of `src/techtap/ndef_encoder.py`, the tag-operation
methods of `src/techtap/rfid_reader.py` and `src/techtap/phone_nfc.py`.

Conventions:
* Python `str` is modelled as `List Char`; Python `bytes` as `List Nat`
  (every element a byte value `< 256` by construction).
* Python exceptions are modelled with `Except PyExc`: a `.error` value is
  an exception raised at that point, propagating like a Python exception.
* `struct.pack` range checks (`>H`, `>I`, `B`) are modelled faithfully:
  out-of-range values raise `structError`.
-/

set_option maxHeartbeats 1600000
set_option maxRecDepth 100000

/-- Python exception kinds relevant to the embedded code. -/
inductive PyExc where
  | indexError
  | structError
  | unicodeError
  | valueError (msg : List Char)
  deriving Repr, DecidableEq

/-- Shorthand: the character list of a string literal (Python `str` model). -/
def S (s : String) : List Char := s.data

/-- Python whitespace test (`str.strip` / `str.split` default). -/
def isSpace (c : Char) : Bool := c.isWhitespace

/-- Python `str.strip()`: drop whitespace from both ends. -/
def pyStrip (l : List Char) : List Char :=
  ((l.dropWhile isSpace).reverse.dropWhile isSpace).reverse

/-- Python `str.lower()` (ASCII range; the matched prefixes are ASCII). -/
def pyLower (l : List Char) : List Char := l.map Char.toLower

/-- Python `str.upper()` (ASCII range; the auth-type keys are ASCII). -/
def pyUpper (l : List Char) : List Char := l.map Char.toUpper

/-- UTF-8 encoding of one character (`str.encode("utf-8")`, per char). -/
def utf8Char (c : Char) : List Nat :=
  let n := c.toNat
  if n < 0x80 then [n]
  else if n < 0x800 then [0xC0 + n / 64, 0x80 + n % 64]
  else if n < 0x10000 then
    [0xE0 + n / 4096, 0x80 + n / 64 % 64, 0x80 + n % 64]
  else
    [0xF0 + n / 262144, 0x80 + n / 4096 % 64, 0x80 + n / 64 % 64, 0x80 + n % 64]

/-- UTF-8 encoding of a string (`str.encode("utf-8")`). -/
def utf8 (l : List Char) : List Nat := l.flatMap utf8Char

/-- `str.encode("ascii")` — strict: raises `UnicodeEncodeError` on non-ASCII. -/
def encodeAscii (l : List Char) : Except PyExc (List Nat) :=
  if l.all (fun c => c.toNat < 128) then .ok (l.map Char.toNat)
  else .error .unicodeError

/-- U+FFFD replacement character. -/
def replCh : Char := Char.ofNat 0xFFFD

/-- `bytes.decode("ascii", errors="replace")`. -/
def asciiReplace (l : List Nat) : List Char :=
  l.map (fun b => if b < 128 then Char.ofNat b else replCh)

/-- `bytes.decode("ascii")` — strict: raises `UnicodeDecodeError` on ≥ 0x80. -/
def asciiStrict (l : List Nat) : Except PyExc (List Char) :=
  if l.all (fun b => b < 128) then .ok (l.map Char.ofNat)
  else .error .unicodeError

/-- Is `b` a UTF-8 continuation byte? -/
def isCont (b : Nat) : Bool := 0x80 ≤ b && b < 0xC0

/-- UTF-8 decoding with replacement (`bytes.decode("utf-8", errors="replace")`),
fuel-indexed so it computes by kernel reduction; the fuel bounds the number of
decoded characters (one unit per emitted character). On valid UTF-8 it is the
exact inverse of `utf8`; on malformed bytes it emits U+FFFD. -/
def utf8DecodeAux : Nat → List Nat → List Char
  | 0, _ => []
  | _ + 1, [] => []
  | f + 1, b :: t =>
    if b < 0x80 then Char.ofNat b :: utf8DecodeAux f t
    else if b < 0xC2 then replCh :: utf8DecodeAux f t
    else if b < 0xE0 then
      match t with
      | b1 :: t1 =>
        if isCont b1 then
          Char.ofNat ((b - 0xC0) * 64 + (b1 - 0x80)) :: utf8DecodeAux f t1
        else replCh :: utf8DecodeAux f t
      | [] => [replCh]
    else if b < 0xF0 then
      match t with
      | b1 :: b2 :: t2 =>
        if isCont b1 && isCont b2 then
          Char.ofNat ((b - 0xE0) * 4096 + (b1 - 0x80) * 64 + (b2 - 0x80)) ::
            utf8DecodeAux f t2
        else replCh :: utf8DecodeAux f t
      | _ => replCh :: utf8DecodeAux f t.tail
    else if b < 0xF5 then
      match t with
      | b1 :: b2 :: b3 :: t3 =>
        if isCont b1 && isCont b2 && isCont b3 then
          Char.ofNat ((b - 0xF0) * 262144 + (b1 - 0x80) * 4096 +
            (b2 - 0x80) * 64 + (b3 - 0x80)) :: utf8DecodeAux f t3
        else replCh :: utf8DecodeAux f t
      | _ => replCh :: utf8DecodeAux f t.tail
    else replCh :: utf8DecodeAux f t

/-- `bytes.decode("utf-8", errors="replace")`. -/
def utf8DecodeRepl (l : List Nat) : List Char := utf8DecodeAux l.length l

/-- `struct.pack(">H", n)`: two big-endian bytes, `struct.error` if `n ≥ 2^16`. -/
def pack2 (n : Nat) : Except PyExc (List Nat) :=
  if n < 65536 then .ok [n / 256, n % 256] else .error .structError

/-- `struct.pack(">I", n)`: four big-endian bytes, `struct.error` if `n ≥ 2^32`. -/
def pack4 (n : Nat) : Except PyExc (List Nat) :=
  if n < 4294967296 then .ok [n / 16777216, n / 65536 % 256, n / 256 % 256, n % 256]
  else .error .structError

/-- `struct.unpack(">H", b)`: `struct.error` unless exactly two bytes. -/
def unpack2 (l : List Nat) : Except PyExc Nat :=
  match l with
  | [a, b] => .ok (a * 256 + b)
  | _ => .error .structError

/-- `struct.unpack(">I", b)`: `struct.error` unless exactly four bytes. -/
def unpack4 (l : List Nat) : Except PyExc Nat :=
  match l with
  | [a, b, c, d] => .ok (a * 16777216 + b * 65536 + c * 256 + d)
  | _ => .error .structError

/-- Python `data[i]` on `bytes`: `IndexError` when out of range. -/
def pyGet (l : List Nat) (i : Nat) : Except PyExc Nat :=
  match l.get? i with
  | some v => .ok v
  | none => .error .indexError

/-- Python slice `data[i:j]` (never raises). -/
def pySlice (l : List Nat) (i j : Nat) : List Nat := (l.drop i).take (j - i)

/-- One uppercase hex digit. -/
def hexDigitU (n : Nat) : Char :=
  if n < 10 then Char.ofNat (48 + n) else Char.ofNat (55 + n)

/-- One lowercase hex digit. -/
def hexDigitL (n : Nat) : Char :=
  if n < 10 then Char.ofNat (48 + n) else Char.ofNat (87 + n)

/-- `bytes_to_hex` from the source: `data.hex().upper()`. -/
def bytes_to_hex (l : List Nat) : List Char :=
  l.flatMap (fun b => [hexDigitU (b / 16), hexDigitU (b % 16)])

/-- `bytes.hex()` (lowercase), used by the decoder's Unknown branch. -/
def hexLower (l : List Nat) : List Char :=
  l.flatMap (fun b => [hexDigitL (b / 16), hexDigitL (b % 16)])

/-! ## NDEF low-level helpers (`_make_ndef_record`, `_wrap_tlv`) -/

/-- `_make_ndef_record`: one NDEF record with header flags.
`struct.pack("BBB", …)` / `struct.pack(">BBI", …)` range checks included. -/
def mkNdefRecord (tnf : Nat) (recType payload : List Nat)
    (isFirst isLast : Bool) : Except PyExc (List Nat) :=
  let flags0 := tnf &&& 0x07
  let flags1 := if isFirst then flags0 ||| 0x80 else flags0
  let flags2 := if isLast then flags1 ||| 0x40 else flags1
  if payload.length ≤ 255 then
    let flags := flags2 ||| 0x10
    if recType.length < 256 then
      .ok ([flags, recType.length, payload.length] ++ recType ++ payload)
    else .error .structError
  else
    if recType.length < 256 then
      (pack4 payload.length).map
        (fun lenBytes => [flags2, recType.length] ++ lenBytes ++ recType ++ payload)
    else .error .structError

/-- `_wrap_tlv`: wrap an NDEF message in the NTAG TLV container. -/
def wrapTlv (msg : List Nat) : Except PyExc (List Nat) :=
  if msg.length < 0xFF then
    .ok ([0x03, msg.length] ++ msg ++ [0xFE])
  else
    (pack2 msg.length).map (fun lenBytes => [0x03, 0xFF] ++ lenBytes ++ msg ++ [0xFE])

/-- `encode_empty_ndef`. -/
def encode_empty_ndef : List Nat := [0x03, 0x00, 0xFE]

/-! ## URI prefix table and social platform table -/

/-- `URI_PREFIXES`, in the source's (dict insertion) order. -/
def URI_PREFIXES : List (List Char × Nat) :=
  [(S "http://www.", 0x01), (S "https://www.", 0x02), (S "http://", 0x03),
   (S "https://", 0x04), (S "tel:", 0x05), (S "mailto:", 0x06),
   (S "ftp://anonymous:anonymous@", 0x07), (S "ftp://ftp.", 0x08),
   (S "ftps://", 0x09), (S "sftp://", 0x0A), (S "smb://", 0x0B),
   (S "nfs://", 0x0C), (S "ftp://", 0x0D), (S "dav://", 0x0E),
   (S "news:", 0x0F), (S "telnet://", 0x10), (S "imap:", 0x11),
   (S "rtsp://", 0x12), (S "urn:", 0x13), (S "pop:", 0x14), (S "sip:", 0x15),
   (S "sips:", 0x16), (S "tftp:", 0x17), (S "btspp://", 0x18),
   (S "btl2cap://", 0x19), (S "btgoep://", 0x1A), (S "tcpobex://", 0x1B),
   (S "irdaobex://", 0x1C), (S "file://", 0x1D), (S "urn:epc:id:", 0x1E),
   (S "urn:epc:tag:", 0x1F), (S "urn:epc:pat:", 0x20), (S "urn:epc:raw:", 0x21),
   (S "urn:epc:", 0x22), (S "urn:nfc:", 0x23)]

/-- Stable descending-by-prefix-length insertion, modelling
`sorted(URI_PREFIXES.items(), key=lambda x: -len(x[0]))`. -/
def insertByLenDesc (x : List Char × Nat) :
    List (List Char × Nat) → List (List Char × Nat)
  | [] => [x]
  | y :: t => if x.1.length ≤ y.1.length then y :: insertByLenDesc x t else x :: y :: t

/-- The prefix table sorted longest-first (stable, as Python's `sorted`). -/
def sortedUriPrefixes : List (List Char × Nat) :=
  URI_PREFIXES.foldl (fun acc x => insertByLenDesc x acc) []

/-- `SOCIAL_PLATFORMS`: each template `"…{}"` is its prefix before the `{}`. -/
def SOCIAL_PLATFORMS : List (List Char × List Char) :=
  [(S "facebook", S "https://facebook.com/"),
   (S "instagram", S "https://instagram.com/"),
   (S "twitter", S "https://twitter.com/"),
   (S "x", S "https://x.com/"),
   (S "tiktok", S "https://tiktok.com/@"),
   (S "youtube", S "https://youtube.com/@"),
   (S "linkedin", S "https://linkedin.com/in/"),
   (S "github", S "https://github.com/"),
   (S "telegram", S "https://t.me/"),
   (S "snapchat", S "https://snapchat.com/add/"),
   (S "reddit", S "https://reddit.com/u/"),
   (S "pinterest", S "https://pinterest.com/"),
   (S "whatsapp", S "https://wa.me/"),
   (S "discord", S "https://discord.gg/"),
   (S "spotify", S "https://open.spotify.com/user/"),
   (S "twitch", S "https://twitch.tv/"),
   (S "threads", S "https://threads.net/@")]

/-! ## Public encoders -/

/-- `encode_url`: URI record with prefix compression, wrapped in TLV. -/
def encode_url (url : List Char) : Except PyExc (List Nat) :=
  let url := pyStrip url
  let matched := sortedUriPrefixes.find? (fun pc => pc.1.isPrefixOf (pyLower url))
  let prefixCode := match matched with | some pc => pc.2 | none => 0x00
  let uriField := match matched with | some pc => url.drop pc.1.length | none => url
  mkNdefRecord 0x01 [0x55] (prefixCode :: utf8 uriField) true true >>= wrapTlv

/-- `encode_text`: NDEF Text record. -/
def encode_text (text lang : List Char) : Except PyExc (List Nat) :=
  let text := pyStrip text
  (encodeAscii lang).bind (fun langBytes =>
    let statusByte := langBytes.length &&& 0x3F
    mkNdefRecord 0x01 [0x54] (statusByte :: (langBytes ++ utf8 text)) true true
      >>= wrapTlv)

/-- Python `name.strip().split(maxsplit=1)`. -/
def splitFirst (l : List Char) : List (List Char) :=
  let l0 := l.dropWhile isSpace
  if l0 = [] then []
  else
    let tok := l0.takeWhile (fun c => !(isSpace c))
    let rest := (l0.dropWhile (fun c => !(isSpace c))).dropWhile isSpace
    if rest = [] then [tok] else [tok, rest]

/-- The vCard 3.0 text block built by `encode_vcard` (CRLF-joined lines);
`.error .indexError` models `parts[0]` on an empty split. -/
def vcardString (name phone email org title url address note : List Char) :
    Except PyExc (List Char) :=
  ((match splitFirst (pyStrip name) with
    | [p0, p1] => .ok (S "N:" ++ p1 ++ S ";" ++ p0 ++ S ";;;")
    | [p0] => .ok (S "N:" ++ p0 ++ S ";;;;")
    | _ => .error .indexError : Except PyExc (List Char))).map (fun nLine =>
    let lines :=
      [S "BEGIN:VCARD", S "VERSION:3.0", S "FN:" ++ pyStrip name, nLine]
      ++ (if phone ≠ [] then [S "TEL;TYPE=CELL:" ++ pyStrip phone] else [])
      ++ (if email ≠ [] then [S "EMAIL:" ++ pyStrip email] else [])
      ++ (if org ≠ [] then [S "ORG:" ++ pyStrip org] else [])
      ++ (if title ≠ [] then [S "TITLE:" ++ pyStrip title] else [])
      ++ (if url ≠ [] then [S "URL:" ++ pyStrip url] else [])
      ++ (if address ≠ [] then [S "ADR;TYPE=HOME:;;" ++ pyStrip address ++ S ";;;;"] else [])
      ++ (if note ≠ [] then [S "NOTE:" ++ pyStrip note] else [])
      ++ [S "END:VCARD"]
    List.intercalate (S "\r\n") lines)

/-- `encode_vcard`: vCard 3.0 MIME record. -/
def encode_vcard (name phone email org title url address note : List Char) :
    Except PyExc (List Nat) :=
  (vcardString name phone email org title url address note).bind (fun vstr =>
    mkNdefRecord 0x02 (utf8 (S "text/vcard")) (utf8 vstr) true true >>= wrapTlv)

/-- `encode_phone`: `tel:` URI record (prefix code 0x05). -/
def encode_phone (phone : List Char) : Except PyExc (List Nat) :=
  let phone := (pyStrip phone).filter (fun c => c ≠ ' ' && c ≠ '-')
  mkNdefRecord 0x01 [0x55] (0x05 :: utf8 phone) true true >>= wrapTlv

/-- `encode_email`: `mailto:` URI record (prefix code 0x06). -/
def encode_email (email subject body : List Char) : Except PyExc (List Nat) :=
  let email := pyStrip email
  let params := (if subject ≠ [] then [S "subject=" ++ subject] else [])
             ++ (if body ≠ [] then [S "body=" ++ body] else [])
  let mailto := if params ≠ [] then email ++ S "?" ++ List.intercalate (S "&") params
                else email
  mkNdefRecord 0x01 [0x55] (0x06 :: utf8 mailto) true true >>= wrapTlv

/-- `encode_social`: resolve platform + username to a URL; `ValueError`
(with the source's message) for an unknown platform. -/
def encode_social (platform username : List Char) : Except PyExc (List Nat) :=
  let platform := pyLower (pyStrip platform)
  let username := (pyStrip username).dropWhile (fun c => c = '@')
  match SOCIAL_PLATFORMS.find? (fun pu => pu.1 == platform) with
  | none => .error (.valueError (S "Unknown platform '" ++ platform ++
      S "'. Supported: discord, facebook, github, instagram, linkedin, pinterest, reddit, snapchat, spotify, telegram, threads, tiktok, twitch, twitter, whatsapp, x, youtube"))
  | some pu => encode_url (pu.2 ++ username)

/-- WSC auth-type map lookup: `auth_map.get(auth_type.upper(), 0x0020)`. -/
def wscAuthVal (authType : List Char) : Nat :=
  let up := pyUpper authType
  ((([(S "OPEN", 0x0001), (S "WPA", 0x0002), (S "WPA2", 0x0020),
      (S "WPA2-EAP", 0x0020)] : List (List Char × Nat)).find?
      (fun kv => kv.1 == up)).map (fun kv => kv.2)).getD 0x0020

/-- WSC encryption value: `0x0004 if auth_type.upper() != "OPEN" else 0x0001`. -/
def wscEncVal (authType : List Char) : Nat :=
  if pyUpper authType ≠ S "OPEN" then 0x0004 else 0x0001

/-- The WSC credential attribute block built by `encode_wifi`
(everything inside the outer Credential attribute). -/
def wscCredential (ssid password authType : List Char) : Except PyExc (List Nat) :=
  let ssidBytes := utf8 ssid
  (pack2 ssidBytes.length).bind (fun ssidLen =>
  (if password ≠ [] then
      (pack2 (utf8 password).length).map
        (fun pwLen => [0x10, 0x27] ++ pwLen ++ utf8 password)
    else .ok []).map (fun keyAttr =>
    [0x10, 0x26, 0x00, 0x01, 0x01]
    ++ ([0x10, 0x45] ++ ssidLen ++ ssidBytes)
    ++ [0x10, 0x03, 0x00, 0x02, wscAuthVal authType / 256, wscAuthVal authType % 256]
    ++ [0x10, 0x0F, 0x00, 0x02, wscEncVal authType / 256, wscEncVal authType % 256]
    ++ keyAttr
    ++ ([0x10, 0x20, 0x00, 0x06] ++ List.replicate 6 0xFF)))

/-- `encode_wifi`: WiFi Simple Configuration MIME record
(`application/vnd.wfa.wsc`). The `hidden` parameter is unused, as in the
source. -/
def encode_wifi (ssid password authType : List Char) (hidden : Bool) :
    Except PyExc (List Nat) :=
  (wscCredential ssid password authType).bind (fun credential =>
  (pack2 credential.length).bind (fun credLen =>
    mkNdefRecord 0x02 (utf8 (S "application/vnd.wfa.wsc"))
      ([0x10, 0x0E] ++ credLen ++ credential) true true >>= wrapTlv))

/-! ## Decoder (`get_ndef_payload_info`) -/

/-- The summary dict built by `get_ndef_payload_info`. -/
structure Info where
  type : List Char
  tnf : Nat
  raw_payload : List Nat
  content_type : List Char
  content : List Char
  language : Option (List Char) := none
  deriving Repr, DecidableEq

/-- Lines 299–334 of `ndef_encoder.py`: TLV header skip and NDEF record
header parse, yielding `(tnf, type bytes, payload bytes)`; `.ok none`
models the explicit `return None` paths. -/
def parseRecord (data : List Nat) : Except PyExc (Option (Nat × List Nat × List Nat)) :=
  if data.length < 5 then .ok none
  else
    match pyGet data 0 with
    | .error e => .error e
    | .ok b0 =>
      if b0 = 0x03 then
        match pyGet data 1 with
        | .error e => .error e
        | .ok b1 =>
          match (if b1 = 0xFF then
                   match unpack2 (pySlice data 2 4) with
                   | .error e => .error e
                   | .ok v => .ok (v, 4)
                 else .ok (b1, 2) : Except PyExc (Nat × Nat)) with
          | .error e => .error e
          | .ok (_, idx) =>
            match pyGet data idx with
            | .error e => .error e
            | .ok header =>
              let tnf := header &&& 0x07
              let sr := header &&& 0x10 ≠ 0
              match pyGet data (idx + 1) with
              | .error e => .error e
              | .ok typeLen =>
                match (if sr then
                         match pyGet data (idx + 2) with
                         | .error e => .error e
                         | .ok v => .ok (v, idx + 3)
                       else
                         match unpack4 (pySlice data (idx + 2) (idx + 6)) with
                         | .error e => .error e
                         | .ok v => .ok (v, idx + 6) : Except PyExc (Nat × Nat)) with
                | .error e => .error e
                | .ok (payloadLen, idx2) =>
                  let recTypeBytes := pySlice data idx2 (idx2 + typeLen)
                  let payload := pySlice data (idx2 + typeLen) (idx2 + typeLen + payloadLen)
                  .ok (some (tnf, recTypeBytes, payload))
      else .ok none

/-- The decoder's reverse prefix lookup (first table entry with the code;
`""` when none matches). -/
def revLookupPrefix (code : Nat) : List Char :=
  ((URI_PREFIXES.find? (fun pc => pc.2 == code)).map (fun pc => pc.1)).getD []

/-- Python `needle in hay` on strings (substring containment). -/
def containsSub (needle : List Char) : List Char → Bool
  | [] => needle.isPrefixOf []
  | h :: t => needle.isPrefixOf (h :: t) || containsSub needle t

/-- Lines 331, 336–371: decode the type string and interpret the record. -/
def interpretRecord (tnf : Nat) (recTypeBytes payload : List Nat) :
    Except PyExc Info :=
  let recType := asciiReplace recTypeBytes
  if recType = S "U" && tnf = 0x01 then
    match pyGet payload 0 with
    | .error e => .error e
    | .ok prefixCode =>
      let uriSuffix := utf8DecodeRepl (payload.drop 1)
      .ok { type := recType, tnf := tnf, raw_payload := payload,
            content_type := S "URL",
            content := revLookupPrefix prefixCode ++ uriSuffix }
  else if recType = S "T" && tnf = 0x01 then
    match pyGet payload 0 with
    | .error e => .error e
    | .ok statusByte =>
      let langLen := statusByte &&& 0x3F
      match asciiStrict (pySlice payload 1 (1 + langLen)) with
      | .error e => .error e
      | .ok lang =>
        let text := utf8DecodeRepl (payload.drop (1 + langLen))
        .ok { type := recType, tnf := tnf, raw_payload := payload,
              content_type := S "Text", content := text, language := some lang }
  else if containsSub (S "vcard") (pyLower recType) then
    .ok { type := recType, tnf := tnf, raw_payload := payload,
          content_type := S "vCard", content := utf8DecodeRepl payload }
  else if containsSub (S "wfa.wsc") (pyLower recType) then
    .ok { type := recType, tnf := tnf, raw_payload := payload,
          content_type := S "WiFi", content := S "[WiFi Configuration Data]" }
  else
    .ok { type := recType, tnf := tnf, raw_payload := payload,
          content_type := S "Unknown", content := hexLower payload }

/-- `get_ndef_payload_info`: the whole body runs under
`try … except (IndexError, struct.error): return None`, so those two
exception kinds become `None`; any other exception (`UnicodeDecodeError`
from the strict language decode) propagates, modelled as `.error ()`. -/
def get_ndef_payload_info (data : List Nat) : Except Unit (Option Info) :=
  match (match parseRecord data with
         | .error e => .error e
         | .ok none => .ok none
         | .ok (some (tnf, recTypeBytes, payload)) =>
           match interpretRecord tnf recTypeBytes payload with
           | .error e => .error e
           | .ok info => .ok (some info) :
           Except PyExc (Option Info)) with
  | .ok r => .ok r
  | .error .indexError => .ok none
  | .error .structError => .ok none
  | .error _ => .error ()

/-! ## Serial transport (`RFIDReader`, `rfid_reader.py`)

The serial channel is modelled as a list of incoming events: either a raw
response line (parsed exactly as `_wait_for_response` does) or a timeout of
the bounded wait. Each public operation returns its result dict together
with the list of command strings sent on the channel. -/

/-- One event seen by `_wait_for_response`: a received line, or the bounded
wait expiring. -/
inductive SerialLine where
  | line (raw : List Char)
  | timeout
  deriving Repr, DecidableEq

/-- The dict `_wait_for_response` returns (`raw` lines omitted — no claim
mentions them). -/
structure WaitResp where
  status : List Char
  data : List Char
  deriving Repr, DecidableEq

/-- Python `line.split("|", 1)`. -/
def splitPipe1 (l : List Char) : List Char × Option (List Char) :=
  (l.takeWhile (fun c => c ≠ '|'),
   if l.any (fun c => c = '|') then some ((l.dropWhile (fun c => c ≠ '|')).drop 1)
   else none)

/-- `_wait_for_response`: read lines until one of `expected` (or `ERROR`)
arrives, or the wait times out; unknown statuses are skipped. Returns the
response and the unconsumed channel events. -/
def waitForResponse (expected : List (List Char)) :
    List SerialLine → WaitResp × List SerialLine
  | [] => (⟨S "TIMEOUT", []⟩, [])
  | .timeout :: rest => (⟨S "TIMEOUT", []⟩, rest)
  | .line raw :: rest =>
    let parts := splitPipe1 raw
    let status := pyStrip parts.1
    let data := match parts.2 with | some d => pyStrip d | none => []
    if status ∈ expected then (⟨status, data⟩, rest)
    else if status = S "ERROR" then (⟨S "ERROR", data⟩, rest)
    else waitForResponse expected rest

/-- The result dict of a tag operation. Absent dict keys are `none`
(`duplicate` is absent-or-`True` in the source, modelled as `Bool`). -/
structure OpResult where
  success : Bool
  error : Option (List Char) := none
  uid : Option (List Char) := none
  attempts : Option Nat := none
  verified : Option Bool := none
  duplicate : Bool := false
  data : Option (List Char) := none
  info : Option (List (List Char × List Char)) := none
  deriving Repr, DecidableEq

/-- The retry loop of `RFIDReader.write_ndef` (`for attempt in
range(1, self.max_retries + 1)`), threading the channel events and
accumulating the command strings sent. -/
def writeNdefGo (cmd : List Char) (maxRetries : Nat) :
    Nat → Nat → List SerialLine → List (List Char) → OpResult × List (List Char)
  | 0, _, _, sent =>
    ({ success := false,
       error := some (S "Failed after " ++ Nat.toDigits 10 maxRetries ++ S " attempts") },
     sent)
  | remaining + 1, attempt, env, sent =>
    let sent := sent ++ [cmd]
    let (resp, env) := waitForResponse [S "TAP_CARD", S "ERROR"] env
    if resp.status = S "TAP_CARD" then
      let (result, env) := waitForResponse
        [S "WRITE_OK", S "WRITE_FAIL", S "ERROR", S "VERIFY_OK", S "DUPLICATE"] env
      if result.status = S "WRITE_OK" then
        ({ success := true, uid := some result.data, attempts := some attempt,
           verified := some false }, sent)
      else if result.status = S "VERIFY_OK" then
        ({ success := true, uid := some result.data, attempts := some attempt,
           verified := some true }, sent)
      else if result.status = S "DUPLICATE" then
        ({ success := false, error := some (S "Tag already contains data"),
           duplicate := true, uid := some result.data }, sent)
      else
        -- WRITE_FAIL `continue`s; inner ERROR / TIMEOUT fall through the
        -- `if` chain to the next loop iteration as well.
        writeNdefGo cmd maxRetries remaining (attempt + 1) env sent
    else if resp.status = S "ERROR" then
      ({ success := false, error := some resp.data }, sent)
    else -- TIMEOUT waiting for TAP_CARD: `continue`
      writeNdefGo cmd maxRetries remaining (attempt + 1) env sent

/-- `RFIDReader.write_ndef`. -/
def rfid_write_ndef (connected : Bool) (maxRetries : Nat) (ndefData : List Nat)
    (env : List SerialLine) : OpResult × List (List Char) :=
  if !connected then ({ success := false, error := some (S "Not connected") }, [])
  else writeNdefGo (S "WRITE_RAW|" ++ bytes_to_hex ndefData) maxRetries
    maxRetries 1 env []

/-- `RFIDReader.erase_tag`: single attempt, no retry loop. -/
def rfid_erase_tag (connected : Bool) (env : List SerialLine) :
    OpResult × List (List Char) :=
  if !connected then ({ success := false, error := some (S "Not connected") }, [])
  else
    let sent := [S "ERASE"]
    let (resp, env) := waitForResponse [S "TAP_CARD", S "ERROR"] env
    if resp.status = S "TAP_CARD" then
      let (result, _) := waitForResponse [S "ERASE_OK", S "ERROR"] env
      if result.status = S "ERASE_OK" then
        ({ success := true, uid := some result.data }, sent)
      else ({ success := false, error := some resp.data }, sent)
    else ({ success := false, error := some resp.data }, sent)

/-- `RFIDReader.read_tag`: single attempt, no retry loop. -/
def rfid_read_tag (connected : Bool) (env : List SerialLine) :
    OpResult × List (List Char) :=
  if !connected then ({ success := false, error := some (S "Not connected") }, [])
  else
    let sent := [S "READ"]
    let (resp, env) := waitForResponse [S "TAP_CARD", S "ERROR"] env
    if resp.status = S "TAP_CARD" then
      let (result, _) := waitForResponse
        [S "READ_OK", S "TAG_INFO", S "DATA", S "NO_TAG", S "ERROR"] env
      if result.status = S "READ_OK" || result.status = S "DATA" ||
          result.status = S "TAG_INFO" then
        ({ success := true, data := some result.data }, sent)
      else if result.status = S "NO_TAG" then
        ({ success := false, error := some (S "No tag detected") }, sent)
      else ({ success := false, error := some resp.data }, sent)
    else ({ success := false, error := some resp.data }, sent)

/-- `RFIDReader.lock_tag`: single attempt, no retry loop. -/
def rfid_lock_tag (connected : Bool) (env : List SerialLine) :
    OpResult × List (List Char) :=
  if !connected then ({ success := false, error := some (S "Not connected") }, [])
  else
    let sent := [S "LOCK"]
    let (resp, env) := waitForResponse [S "TAP_CARD", S "ERROR"] env
    if resp.status = S "TAP_CARD" then
      let (result, _) := waitForResponse [S "LOCK_OK", S "ERROR"] env
      if result.status = S "LOCK_OK" then
        ({ success := true, uid := some result.data }, sent)
      else ({ success := false, error := some resp.data }, sent)
    else ({ success := false, error := some resp.data }, sent)

/-- Python `pair.split(":", 1)` used by `get_tag_info`. -/
def splitColon1 (l : List Char) : List Char × List Char :=
  (l.takeWhile (fun c => c ≠ ':'), (l.dropWhile (fun c => c ≠ ':')).drop 1)

/-- The `TAG_INFO` data parse: comma-separated `key:value` pairs. -/
def parseTagInfo (data : List Char) : List (List Char × List Char) :=
  ((data.splitOn ',').filter (fun pair => pair.any (fun c => c = ':'))).map
    (fun pair => (pyStrip (splitColon1 pair).1, pyStrip (splitColon1 pair).2))

/-- `RFIDReader.get_tag_info`: single attempt, no retry loop. -/
def rfid_get_tag_info (connected : Bool) (env : List SerialLine) :
    OpResult × List (List Char) :=
  if !connected then ({ success := false, error := some (S "Not connected") }, [])
  else
    let sent := [S "INFO"]
    let (resp, env) := waitForResponse [S "TAP_CARD", S "ERROR"] env
    if resp.status = S "TAP_CARD" then
      let (result, _) := waitForResponse [S "TAG_INFO", S "NO_TAG", S "ERROR"] env
      if result.status = S "TAG_INFO" then
        ({ success := true, info := some (parseTagInfo result.data) }, sent)
      else ({ success := false, error := some resp.data }, sent)
    else ({ success := false, error := some resp.data }, sent)

/-! ## Bridge transport (`PhoneNFCReader`, `phone_nfc.py`)

`_send_command` is modelled by popping one event from a list: `none` is a
reply timeout (`_send_command` returning `None`), `some r` a decoded JSON
reply. Each operation returns its result dict and the number of commands
sent over the bus. -/

/-- A reply message from the phone page (`response.get(…)` defaults are
applied at use sites, so absent fields are `Option`s). -/
structure PhoneResp where
  event : List Char
  uid : Option (List Char) := none
  error : Option (List Char) := none
  verified : Option Bool := none
  records : List (List Char × List Char) := []
  info : List (List Char × List Char) := []
  deriving Repr, DecidableEq

/-- Pop the next reply (or timeout) from the bus. -/
def popResp : List (Option PhoneResp) → Option PhoneResp × List (Option PhoneResp)
  | [] => (none, [])
  | r :: rest => (r, rest)

/-- The retry loop of `PhoneNFCReader.write_ndef`. -/
def phoneWriteGo (maxRetries : Nat) :
    Nat → Nat → List (Option PhoneResp) → Nat → OpResult × Nat
  | 0, _, _, sends =>
    ({ success := false,
       error := some (S "Failed after " ++ Nat.toDigits 10 maxRetries ++ S " attempts") },
     sends)
  | remaining + 1, attempt, env, sends =>
    let (response, env) := popResp env
    let sends := sends + 1
    match response with
    | none => phoneWriteGo maxRetries remaining (attempt + 1) env sends
    | some r =>
      if r.event = S "write_ok" then
        ({ success := true, uid := some (r.uid.getD (S "Unknown")),
           attempts := some attempt, verified := some (r.verified.getD false) },
         sends)
      else if r.event = S "error" then
        if attempt < maxRetries then
          phoneWriteGo maxRetries remaining (attempt + 1) env sends
        else
          ({ success := false, error := some (r.error.getD (S "Unknown error")) },
           sends)
      else phoneWriteGo maxRetries remaining (attempt + 1) env sends

/-- `PhoneNFCReader.write_ndef`. -/
def phone_write_ndef (connected nfcSupported : Bool) (maxRetries : Nat)
    (env : List (Option PhoneResp)) : OpResult × Nat :=
  if !connected then
    ({ success := false, error := some (S "Phone not connected") }, 0)
  else if !nfcSupported then
    ({ success := false, error := some (S "Web NFC not supported on phone") }, 0)
  else phoneWriteGo maxRetries maxRetries 1 env 0

/-- `PhoneNFCReader.erase_tag`: one command, no retry loop. -/
def phone_erase_tag (connected : Bool) (env : List (Option PhoneResp)) :
    OpResult × Nat :=
  if !connected then
    ({ success := false, error := some (S "Phone not connected") }, 0)
  else
    match (popResp env).1 with
    | some r =>
      if r.event = S "erase_ok" then
        ({ success := true, uid := some (r.uid.getD []) }, 1)
      else ({ success := false, error := some (r.error.getD (S "Erase failed")) }, 1)
    | none => ({ success := false, error := some (S "No response from phone") }, 1)

/-- Display lines built by `PhoneNFCReader.read_tag` from the records. -/
def phoneReadRawLines (records : List (List Char × List Char)) : List (List Char) :=
  records.map (fun rec => pyUpper rec.1 ++ S ": " ++ rec.2)

/-- `PhoneNFCReader.read_tag`: one command, no retry loop. -/
def phone_read_tag (connected : Bool) (env : List (Option PhoneResp)) :
    OpResult × Nat :=
  if !connected then
    ({ success := false, error := some (S "Phone not connected") }, 0)
  else
    match (popResp env).1 with
    | some r =>
      if r.event = S "read_ok" then
        ({ success := true, data := some [] }, 1)
      else ({ success := false, error := some (r.error.getD (S "Read failed")) }, 1)
    | none => ({ success := false, error := some (S "No response from phone") }, 1)

/-- `PhoneNFCReader.lock_tag`: one command, no retry loop. -/
def phone_lock_tag (connected : Bool) (env : List (Option PhoneResp)) :
    OpResult × Nat :=
  if !connected then
    ({ success := false, error := some (S "Phone not connected") }, 0)
  else
    match (popResp env).1 with
    | some r =>
      if r.event = S "lock_ok" then
        ({ success := true, uid := some (r.uid.getD []) }, 1)
      else ({ success := false, error := some (r.error.getD (S "Lock failed")) }, 1)
    | none => ({ success := false, error := some (S "No response from phone") }, 1)

/-- `PhoneNFCReader.get_tag_info`: one command, no retry loop. -/
def phone_get_tag_info (connected : Bool) (env : List (Option PhoneResp)) :
    OpResult × Nat :=
  if !connected then
    ({ success := false, error := some (S "Phone not connected") }, 0)
  else
    match (popResp env).1 with
    | some r =>
      if r.event = S "tag_info" then
        ({ success := true, info := some r.info }, 1)
      else ({ success := false, error := some (r.error.getD (S "Info failed")) }, 1)
    | none => ({ success := false, error := some (S "No response from phone") }, 1)

/-! ## UTF-8 round-trip lemmas -/

theorem char_toNat_lt (c : Char) : c.toNat < 1114112 := by
  rcases c.valid with h | ⟨_, h2⟩
  · exact lt_trans h (by norm_num)
  · exact h2

theorem utf8DecodeAux_nil (f : Nat) : utf8DecodeAux f [] = [] := by
  cases f <;> rfl

/-- Decoding one encoded character consumes exactly one unit of fuel and
returns the character. -/
theorem utf8DecodeAux_utf8Char (c : Char) (t : List Nat) (f : Nat) :
    utf8DecodeAux (f + 1) (utf8Char c ++ t) = c :: utf8DecodeAux f t := by
  have hv : c.toNat < 1114112 := char_toNat_lt c
  have hof : Char.ofNat c.toNat = c := Char.ofNat_toNat c
  unfold utf8Char
  by_cases h1 : c.toNat < 128
  · simp only [if_pos h1, List.cons_append, List.nil_append]
    simp only [utf8DecodeAux, if_pos h1, hof]
  · by_cases h2 : c.toNat < 2048
    · simp only [if_neg h1, if_pos h2, List.cons_append, List.nil_append]
      simp only [utf8DecodeAux]
      rw [if_neg (by omega), if_neg (by omega), if_pos (by omega),
        if_pos (by simp only [isCont, Bool.and_eq_true, decide_eq_true_eq]; omega)]
      have harg : (192 + c.toNat / 64 - 192) * 64 + (128 + c.toNat % 64 - 128)
          = c.toNat := by omega
      rw [harg, hof]
    · by_cases h3 : c.toNat < 65536
      · simp only [if_neg h1, if_neg h2, if_pos h3, List.cons_append, List.nil_append]
        simp only [utf8DecodeAux]
        rw [if_neg (by omega), if_neg (by omega), if_neg (by omega),
          if_pos (by omega),
          if_pos (by simp only [isCont, Bool.and_eq_true, decide_eq_true_eq]; omega)]
        have harg : (224 + c.toNat / 4096 - 224) * 4096 +
            (128 + c.toNat / 64 % 64 - 128) * 64 + (128 + c.toNat % 64 - 128)
            = c.toNat := by omega
        rw [harg, hof]
      · simp only [if_neg h1, if_neg h2, if_neg h3, List.cons_append, List.nil_append]
        simp only [utf8DecodeAux]
        rw [if_neg (by omega), if_neg (by omega), if_neg (by omega),
          if_neg (by omega), if_pos (by omega),
          if_pos (by simp only [isCont, Bool.and_eq_true, decide_eq_true_eq]; omega)]
        have harg : (240 + c.toNat / 262144 - 240) * 262144 +
            (128 + c.toNat / 4096 % 64 - 128) * 4096 +
            (128 + c.toNat / 64 % 64 - 128) * 64 + (128 + c.toNat % 64 - 128)
            = c.toNat := by omega
        rw [harg, hof]

theorem utf8DecodeAux_utf8 (l : List Char) (t : List Nat) (f : Nat) :
    utf8DecodeAux (l.length + f) (utf8 l ++ t) = l ++ utf8DecodeAux f t := by
  induction l generalizing f with
  | nil => simp [utf8]
  | cons c l ih =>
    have : (c :: l).length + f = (l.length + f) + 1 := by simp; omega
    rw [this]
    show utf8DecodeAux ((l.length + f) + 1) ((utf8Char c ++ utf8 l) ++ t) = _
    rw [List.append_assoc, utf8DecodeAux_utf8Char, ih]
    rfl

theorem one_le_utf8Char_length (c : Char) : 1 ≤ (utf8Char c).length := by
  unfold utf8Char
  dsimp only
  split_ifs <;> simp

theorem length_le_utf8_length (l : List Char) : l.length ≤ (utf8 l).length := by
  induction l with
  | nil => simp [utf8]
  | cons c l ih =>
    have := one_le_utf8Char_length c
    simp only [utf8, List.flatMap_cons, List.length_append, List.length_cons]
    simp only [utf8] at ih
    omega

/-- `bytes.decode("utf-8", errors="replace")` inverts `str.encode("utf-8")`. -/
theorem utf8DecodeRepl_utf8 (l : List Char) : utf8DecodeRepl (utf8 l) = l := by
  unfold utf8DecodeRepl
  obtain ⟨f, hf⟩ : ∃ f, (utf8 l).length = l.length + f :=
    ⟨(utf8 l).length - l.length, by have := length_le_utf8_length l; omega⟩
  rw [hf, ← List.append_nil (utf8 l), utf8DecodeAux_utf8, utf8DecodeAux_nil,
    List.append_nil]

/-! ## ASCII lemmas -/

theorem asciiStrict_map_toNat (l : List Char) (h : l.all (fun c => c.toNat < 128)) :
    asciiStrict (l.map Char.toNat) = .ok l := by
  unfold asciiStrict
  rw [if_pos]
  · congr 1
    rw [List.map_map]
    conv_rhs => rw [← List.map_id l]
    apply List.map_congr_left
    intro c _
    exact Char.ofNat_toNat c
  · have hmap : ∀ (m : List Char),
        (m.map Char.toNat).all (fun b => b < 128) = m.all (fun c => c.toNat < 128) := by
      intro m
      induction m with
      | nil => rfl
      | cons c t ih => simp [ih]
    rw [hmap]
    exact h

theorem encodeAscii_ok (l : List Char) (h : l.all (fun c => c.toNat < 128)) :
    encodeAscii l = .ok (l.map Char.toNat) := by
  unfold encodeAscii
  rw [if_pos h]

/-! ## Record-header flag facts and symbolic evaluation of `parseRecord` -/

theorem flagsSR_and7 (t : Nat) (ht : t < 8) :
    ((((t &&& 7) ||| 128) ||| 64) ||| 16) &&& 7 = t := by
  interval_cases t <;> decide

theorem flagsSR_and16 (t : Nat) (ht : t < 8) :
    ((((t &&& 7) ||| 128) ||| 64) ||| 16) &&& 16 = 16 := by
  interval_cases t <;> decide

theorem flagsLong_and7 (t : Nat) (ht : t < 8) :
    (((t &&& 7) ||| 128) ||| 64) &&& 7 = t := by
  interval_cases t <;> decide

theorem flagsLong_and16 (t : Nat) (ht : t < 8) :
    (((t &&& 7) ||| 128) ||| 64) &&& 16 = 0 := by
  interval_cases t <;> decide

theorem drop_five_cons (a b c d e : Nat) (l : List Nat) (k : Nat) :
    (a :: b :: c :: d :: e :: l).drop (5 + k) = l.drop k := by
  rw [show 5 + k = ((((k + 1) + 1) + 1) + 1) + 1 by omega]
  simp only [List.drop_succ_cons]

theorem drop_seven_cons (a b c d e f g : Nat) (l : List Nat) (k : Nat) :
    (a :: b :: c :: d :: e :: f :: g :: l).drop (7 + k) = l.drop k := by
  rw [show 7 + k = ((((((k + 1) + 1) + 1) + 1) + 1) + 1) + 1 by omega]
  simp only [List.drop_succ_cons]

theorem drop_ten_cons (a b c d e f g h i j : Nat) (l : List Nat) (k : Nat) :
    (a :: b :: c :: d :: e :: f :: g :: h :: i :: j :: l).drop (10 + k) = l.drop k := by
  rw [show 10 + k = (((((((((k + 1) + 1) + 1) + 1) + 1) + 1) + 1) + 1) + 1) + 1 by omega]
  simp only [List.drop_succ_cons]

/-- Symbolic run of the parser: short TLV length, short-record header. -/
theorem parseRecord_srShort (L F rtl pll : Nat) (rest : List Nat)
    (hL : L ≠ 255) (hsr : F &&& 16 ≠ 0) :
    parseRecord (3 :: L :: F :: rtl :: pll :: rest) =
      .ok (some (F &&& 7, rest.take rtl, (rest.drop rtl).take pll)) := by
  unfold parseRecord
  rw [if_neg (by simp only [List.length_cons]; omega)]
  rw [show pyGet (3 :: L :: F :: rtl :: pll :: rest) 0 = .ok 3 from rfl]
  dsimp only
  rw [if_pos rfl]
  rw [show pyGet (3 :: L :: F :: rtl :: pll :: rest) 1 = .ok L from rfl]
  dsimp only
  rw [if_neg hL]
  dsimp only
  rw [show pyGet (3 :: L :: F :: rtl :: pll :: rest) 2 = .ok F from rfl]
  dsimp only
  rw [show pyGet (3 :: L :: F :: rtl :: pll :: rest) 3 = .ok rtl from rfl]
  dsimp only
  rw [if_pos hsr]
  rw [show pyGet (3 :: L :: F :: rtl :: pll :: rest) 4 = .ok pll from rfl]
  dsimp only
  rw [show pySlice (3 :: L :: F :: rtl :: pll :: rest) 5 (5 + rtl) = rest.take rtl by
    unfold pySlice
    rw [show (3 :: L :: F :: rtl :: pll :: rest).drop 5 = rest from rfl,
      show 5 + rtl - 5 = rtl by omega]]
  rw [show pySlice (3 :: L :: F :: rtl :: pll :: rest) (5 + rtl) (5 + rtl + pll)
      = (rest.drop rtl).take pll by
    unfold pySlice
    rw [show 5 + rtl + pll - (5 + rtl) = pll by omega, drop_five_cons]]

/-- Symbolic run of the parser: long (0xFF + 2-byte) TLV length,
short-record header. -/
theorem parseRecord_srLong (h1 h0 F rtl pll : Nat) (rest : List Nat)
    (hsr : F &&& 16 ≠ 0) :
    parseRecord (3 :: 255 :: h1 :: h0 :: F :: rtl :: pll :: rest) =
      .ok (some (F &&& 7, rest.take rtl, (rest.drop rtl).take pll)) := by
  unfold parseRecord
  rw [if_neg (by simp only [List.length_cons]; omega)]
  rw [show pyGet (3 :: 255 :: h1 :: h0 :: F :: rtl :: pll :: rest) 0 = .ok 3 from rfl]
  dsimp only
  rw [if_pos rfl]
  rw [show pyGet (3 :: 255 :: h1 :: h0 :: F :: rtl :: pll :: rest) 1 = .ok 255 from rfl]
  dsimp only
  rw [if_pos rfl]
  rw [show unpack2 (pySlice (3 :: 255 :: h1 :: h0 :: F :: rtl :: pll :: rest) 2 4)
      = .ok (h1 * 256 + h0) from rfl]
  dsimp only
  rw [show pyGet (3 :: 255 :: h1 :: h0 :: F :: rtl :: pll :: rest) 4 = .ok F from rfl]
  dsimp only
  rw [show pyGet (3 :: 255 :: h1 :: h0 :: F :: rtl :: pll :: rest) 5 = .ok rtl from rfl]
  dsimp only
  rw [if_pos hsr]
  rw [show pyGet (3 :: 255 :: h1 :: h0 :: F :: rtl :: pll :: rest) 6 = .ok pll from rfl]
  dsimp only
  rw [show pySlice (3 :: 255 :: h1 :: h0 :: F :: rtl :: pll :: rest) 7 (7 + rtl)
      = rest.take rtl by
    unfold pySlice
    rw [show (3 :: 255 :: h1 :: h0 :: F :: rtl :: pll :: rest).drop 7 = rest from rfl,
      show 7 + rtl - 7 = rtl by omega]]
  rw [show pySlice (3 :: 255 :: h1 :: h0 :: F :: rtl :: pll :: rest) (7 + rtl)
      (7 + rtl + pll) = (rest.drop rtl).take pll by
    unfold pySlice
    rw [show 7 + rtl + pll - (7 + rtl) = pll by omega, drop_seven_cons]]

/-- Symbolic run of the parser: long TLV length, 4-byte payload length. -/
theorem parseRecord_longLong (h1 h0 F rtl b3 b2 b1 b0 : Nat) (rest : List Nat)
    (hsr : F &&& 16 = 0) :
    parseRecord (3 :: 255 :: h1 :: h0 :: F :: rtl :: b3 :: b2 :: b1 :: b0 :: rest) =
      .ok (some (F &&& 7, rest.take rtl,
        (rest.drop rtl).take (b3 * 16777216 + b2 * 65536 + b1 * 256 + b0))) := by
  unfold parseRecord
  rw [if_neg (by simp only [List.length_cons]; omega)]
  rw [show pyGet (3 :: 255 :: h1 :: h0 :: F :: rtl :: b3 :: b2 :: b1 :: b0 :: rest) 0
      = .ok 3 from rfl]
  dsimp only
  rw [if_pos rfl]
  rw [show pyGet (3 :: 255 :: h1 :: h0 :: F :: rtl :: b3 :: b2 :: b1 :: b0 :: rest) 1
      = .ok 255 from rfl]
  dsimp only
  rw [if_pos rfl]
  rw [show unpack2 (pySlice
      (3 :: 255 :: h1 :: h0 :: F :: rtl :: b3 :: b2 :: b1 :: b0 :: rest) 2 4)
      = .ok (h1 * 256 + h0) from rfl]
  dsimp only
  rw [show pyGet (3 :: 255 :: h1 :: h0 :: F :: rtl :: b3 :: b2 :: b1 :: b0 :: rest) 4
      = .ok F from rfl]
  dsimp only
  rw [show pyGet (3 :: 255 :: h1 :: h0 :: F :: rtl :: b3 :: b2 :: b1 :: b0 :: rest) 5
      = .ok rtl from rfl]
  dsimp only
  rw [if_neg (by simp [hsr])]
  rw [show unpack4 (pySlice
      (3 :: 255 :: h1 :: h0 :: F :: rtl :: b3 :: b2 :: b1 :: b0 :: rest) 6 10)
      = .ok (b3 * 16777216 + b2 * 65536 + b1 * 256 + b0) from rfl]
  dsimp only
  rw [show pySlice (3 :: 255 :: h1 :: h0 :: F :: rtl :: b3 :: b2 :: b1 :: b0 :: rest)
      10 (10 + rtl) = rest.take rtl by
    unfold pySlice
    rw [show (3 :: 255 :: h1 :: h0 :: F :: rtl :: b3 :: b2 :: b1 :: b0 :: rest).drop 10
        = rest from rfl,
      show 10 + rtl - 10 = rtl by omega]]
  rw [show pySlice (3 :: 255 :: h1 :: h0 :: F :: rtl :: b3 :: b2 :: b1 :: b0 :: rest)
      (10 + rtl) (10 + rtl + (b3 * 16777216 + b2 * 65536 + b1 * 256 + b0))
      = (rest.drop rtl).take (b3 * 16777216 + b2 * 65536 + b1 * 256 + b0) by
    unfold pySlice
    rw [show 10 + rtl + (b3 * 16777216 + b2 * 65536 + b1 * 256 + b0) - (10 + rtl)
        = b3 * 16777216 + b2 * 65536 + b1 * 256 + b0 by omega, drop_ten_cons]]

/-- Central round-trip: the parser inverts `_make_ndef_record` + `_wrap_tlv`
whenever they succeed, recovering the TNF, type bytes and payload bytes. -/
theorem parseRecord_roundtrip (t : Nat) (ht : t < 8) (rt pl rec out : List Nat)
    (h1 : mkNdefRecord t rt pl true true = .ok rec)
    (h2 : wrapTlv rec = .ok out) :
    parseRecord out = .ok (some (t, rt, pl)) := by
  unfold mkNdefRecord at h1
  dsimp only at h1
  by_cases hsr : pl.length ≤ 255
  · rw [if_pos hsr] at h1
    by_cases hrt : rt.length < 256
    · rw [if_pos hrt] at h1
      have hrec : rec = ((((t &&& 7) ||| 128) ||| 64) ||| 16) :: rt.length ::
          pl.length :: (rt ++ pl) := by
        cases h1; simp
      subst hrec
      unfold wrapTlv at h2
      by_cases hlen : (((((t &&& 7) ||| 128) ||| 64) ||| 16) :: rt.length ::
          pl.length :: (rt ++ pl)).length < 255
      · rw [if_pos hlen] at h2
        have hout : out = 3 :: (rt.length + pl.length + 3) ::
            ((((t &&& 7) ||| 128) ||| 64) ||| 16) :: rt.length :: pl.length ::
            (rt ++ (pl ++ [254])) := by
          cases h2
          simp
        subst hout
        simp only [List.length_cons, List.length_append] at hlen
        rw [parseRecord_srShort _ _ _ _ _ (by omega)
          (by rw [flagsSR_and16 t ht]; omega)]
        rw [flagsSR_and7 t ht, List.take_left, List.drop_left, List.take_left]
      · rw [if_neg hlen] at h2
        unfold pack2 at h2
        by_cases h16 : (((((t &&& 7) ||| 128) ||| 64) ||| 16) :: rt.length ::
            pl.length :: (rt ++ pl)).length < 65536
        · rw [if_pos h16] at h2
          dsimp only [Except.map] at h2
          have hout : out = 3 :: 255 ::
              ((rt.length + pl.length + 3) / 256) ::
              ((rt.length + pl.length + 3) % 256) ::
              ((((t &&& 7) ||| 128) ||| 64) ||| 16) :: rt.length :: pl.length ::
              (rt ++ (pl ++ [254])) := by
            cases h2
            simp only [List.length_cons, List.length_append, List.cons_append,
              List.nil_append, List.append_assoc, List.cons.injEq]
          subst hout
          rw [parseRecord_srLong _ _ _ _ _ _ (by rw [flagsSR_and16 t ht]; omega)]
          rw [flagsSR_and7 t ht, List.take_left, List.drop_left, List.take_left]
        · rw [if_neg h16] at h2
          cases h2
    · rw [if_neg hrt] at h1; cases h1
  · rw [if_neg hsr] at h1
    by_cases hrt : rt.length < 256
    · rw [if_pos hrt] at h1
      unfold pack4 at h1
      by_cases hp4 : pl.length < 4294967296
      · rw [if_pos hp4] at h1
        dsimp only [Except.map] at h1
        have hrec : rec = (((t &&& 7) ||| 128) ||| 64) :: rt.length ::
            (pl.length / 16777216) :: (pl.length / 65536 % 256) ::
            (pl.length / 256 % 256) :: (pl.length % 256) :: (rt ++ pl) := by
          cases h1; simp
        subst hrec
        unfold wrapTlv at h2
        rw [if_neg (by simp only [List.length_cons, List.length_append]; omega)] at h2
        unfold pack2 at h2
        by_cases h16 : ((((t &&& 7) ||| 128) ||| 64) :: rt.length ::
            (pl.length / 16777216) :: (pl.length / 65536 % 256) ::
            (pl.length / 256 % 256) :: (pl.length % 256) :: (rt ++ pl)).length < 65536
        · rw [if_pos h16] at h2
          dsimp only [Except.map] at h2
          have hout : out = 3 :: 255 ::
              ((rt.length + pl.length + 6) / 256) ::
              ((rt.length + pl.length + 6) % 256) ::
              (((t &&& 7) ||| 128) ||| 64) :: rt.length ::
              (pl.length / 16777216) :: (pl.length / 65536 % 256) ::
              (pl.length / 256 % 256) :: (pl.length % 256) ::
              (rt ++ (pl ++ [254])) := by
            cases h2
            simp only [List.length_cons, List.length_append, List.cons_append,
              List.nil_append, List.append_assoc, List.cons.injEq]
          subst hout
          rw [parseRecord_longLong _ _ _ _ _ _ _ _ _ (flagsLong_and16 t ht)]
          rw [flagsLong_and7 t ht, List.take_left, List.drop_left,
            show pl.length / 16777216 * 16777216 + pl.length / 65536 % 256 * 65536 +
              pl.length / 256 % 256 * 256 + pl.length % 256 = pl.length by omega,
            List.take_left]
        · rw [if_neg h16] at h2
          cases h2
      · rw [if_neg hp4] at h1
        dsimp only [Except.map] at h1
        cases h1
    · rw [if_neg hrt] at h1; cases h1

/-! ## Interpretation lemmas per record kind -/

theorem except_bind_ok {α β : Type} (x : Except PyExc α) (f : α → Except PyExc β)
    (b : β) (h : (x >>= f) = .ok b) : ∃ a, x = .ok a ∧ f a = .ok b := by
  cases x with
  | ok a => exact ⟨a, rfl, h⟩
  | error e => simp [Bind.bind, Except.bind] at h

theorem get_ndef_of_parse_interpret (data : List Nat) (tnf : Nat)
    (rt pl : List Nat) (info : Info)
    (hp : parseRecord data = .ok (some (tnf, rt, pl)))
    (hi : interpretRecord tnf rt pl = .ok info) :
    get_ndef_payload_info data = .ok (some info) := by
  unfold get_ndef_payload_info
  rw [hp]
  dsimp only
  rw [hi]

theorem interpretRecord_U (code : Nat) (suffix : List Nat) :
    interpretRecord 1 [0x55] (code :: suffix) =
      .ok { type := S "U", tnf := 1, raw_payload := code :: suffix,
            content_type := S "URL",
            content := revLookupPrefix code ++ utf8DecodeRepl suffix } := by
  unfold interpretRecord
  rw [show asciiReplace [0x55] = S "U" by decide]
  rw [if_pos (by decide)]
  rw [show pyGet (code :: suffix) 0 = .ok code from rfl]
  dsimp only
  rw [show (code :: suffix).drop 1 = suffix from rfl]

theorem interpretRecord_T (st : Nat) (rest : List Nat) :
    interpretRecord 1 [0x54] (st :: rest) =
      (asciiStrict (rest.take (st &&& 63))).map (fun lang =>
        { type := S "T", tnf := 1, raw_payload := st :: rest,
          content_type := S "Text",
          content := utf8DecodeRepl (rest.drop (st &&& 63)),
          language := some lang }) := by
  unfold interpretRecord
  rw [show asciiReplace [0x54] = S "T" by decide]
  rw [if_neg (by decide), if_pos (by decide)]
  rw [show pyGet (st :: rest) 0 = .ok st from rfl]
  dsimp only
  rw [show pySlice (st :: rest) 1 (1 + (st &&& 63)) = rest.take (st &&& 63) by
    unfold pySlice
    rw [show (st :: rest).drop 1 = rest from rfl, show 1 + (st &&& 63) - 1 = st &&& 63 by omega]]
  rw [show (st :: rest).drop (1 + (st &&& 63)) = rest.drop (st &&& 63) by
    rw [show 1 + (st &&& 63) = (st &&& 63) + 1 by omega, List.drop_succ_cons]]
  cases hA : asciiStrict (rest.take (st &&& 63)) <;> simp [Except.map]

theorem interpretRecord_vcard (pl : List Nat) :
    interpretRecord 2 (utf8 (S "text/vcard")) pl =
      .ok { type := S "text/vcard", tnf := 2, raw_payload := pl,
            content_type := S "vCard", content := utf8DecodeRepl pl } := by
  unfold interpretRecord
  rw [show asciiReplace (utf8 (S "text/vcard")) = S "text/vcard" by decide]
  rw [if_neg (by decide), if_neg (by decide), if_pos (by decide)]

theorem interpretRecord_wifi (pl : List Nat) :
    interpretRecord 2 (utf8 (S "application/vnd.wfa.wsc")) pl =
      .ok { type := S "application/vnd.wfa.wsc", tnf := 2, raw_payload := pl,
            content_type := S "WiFi", content := S "[WiFi Configuration Data]" } := by
  unfold interpretRecord
  rw [show asciiReplace (utf8 (S "application/vnd.wfa.wsc"))
      = S "application/vnd.wfa.wsc" by decide]
  rw [if_neg (by decide), if_neg (by decide), if_neg (by decide), if_pos (by decide)]

/-! ## Per-kind round-trip helper lemmas -/

theorem revLookup_sorted_entries :
    ∀ q ∈ sortedUriPrefixes, revLookupPrefix q.2 = q.1 := by decide

/-- URL round-trip: when the input is already stripped and the matched
prefix occurs literally (in particular for any lowercase URL), decoding
the encoder's output restores the URL exactly. -/
theorem encode_url_roundtrip (url : List Char) (out : List Nat)
    (hcanon : pyStrip url = url)
    (hlit : ∀ pc, sortedUriPrefixes.find? (fun q => q.1.isPrefixOf (pyLower url)) =
      some pc → pc.1.isPrefixOf url = true)
    (hok : encode_url url = .ok out) :
    ∃ payload, get_ndef_payload_info out = .ok (some
      { type := S "U", tnf := 1, raw_payload := payload,
        content_type := S "URL", content := url }) := by
  simp only [encode_url, hcanon] at hok
  cases hm : sortedUriPrefixes.find? (fun q => q.1.isPrefixOf (pyLower url)) with
  | some pc =>
    rw [hm] at hok
    dsimp only at hok
    obtain ⟨rec, hmk, hwrap⟩ := except_bind_ok _ _ _ hok
    refine ⟨pc.2 :: utf8 (url.drop pc.1.length), ?_⟩
    have hparse := parseRecord_roundtrip 1 (by omega) _ _ _ _ hmk hwrap
    apply get_ndef_of_parse_interpret _ 1 [0x55] _ _ hparse
    rw [interpretRecord_U, utf8DecodeRepl_utf8,
      revLookup_sorted_entries pc (List.mem_of_find?_eq_some hm)]
    obtain ⟨s, hs⟩ : pc.1 <+: url := List.isPrefixOf_iff_prefix.mp (hlit pc hm)
    subst hs
    rw [List.drop_left]
  | none =>
    rw [hm] at hok
    dsimp only at hok
    obtain ⟨rec, hmk, hwrap⟩ := except_bind_ok _ _ _ hok
    refine ⟨0 :: utf8 url, ?_⟩
    have hparse := parseRecord_roundtrip 1 (by omega) _ _ _ _ hmk hwrap
    apply get_ndef_of_parse_interpret _ 1 [0x55] _ _ hparse
    rw [interpretRecord_U, utf8DecodeRepl_utf8,
      show revLookupPrefix 0 = [] by decide]
    rw [List.nil_append]

theorem drop_append_add (l₁ l₂ : List Nat) (k : Nat) :
    (l₁ ++ l₂).drop (l₁.length + k) = l₂.drop k := by
  rw [← List.drop_drop, List.drop_left]

theorem nine_cons_drop_add (a b c d e f g h i : Nat) (l : List Nat) (k : Nat) :
    (a :: b :: c :: d :: e :: f :: g :: h :: i :: l).drop (9 + k) = l.drop k := by
  rw [show 9 + k = ((((((((k + 1) + 1) + 1) + 1) + 1) + 1) + 1) + 1) + 1 by omega]
  simp only [List.drop_succ_cons]

/-- Text round-trip: for stripped text and an ASCII language code shorter
than 64 bytes, decoding restores both the text and the language. -/
theorem encode_text_roundtrip (text lang : List Char) (out : List Nat)
    (hcanon : pyStrip text = text)
    (hascii : lang.all (fun c => c.toNat < 128) = true)
    (hlen : lang.length < 64)
    (hok : encode_text text lang = .ok out) :
    get_ndef_payload_info out = .ok (some
      { type := S "T", tnf := 1,
        raw_payload := lang.length :: (lang.map Char.toNat ++ utf8 text),
        content_type := S "Text", content := text, language := some lang }) := by
  have hmask : lang.length &&& 63 = lang.length := by
    have := Nat.and_pow_two_sub_one_eq_mod lang.length 6
    norm_num at this
    omega
  simp only [encode_text, hcanon, encodeAscii_ok lang hascii] at hok
  rw [show ((Except.ok (lang.map Char.toNat) : Except PyExc (List Nat)).bind
    (fun langBytes => mkNdefRecord 1 [0x54]
      ((langBytes.length &&& 63) :: (langBytes ++ utf8 text)) true true >>= wrapTlv))
    = mkNdefRecord 1 [0x54]
      (((lang.map Char.toNat).length &&& 63) :: (lang.map Char.toNat ++ utf8 text))
      true true >>= wrapTlv from rfl] at hok
  rw [List.length_map, hmask] at hok
  obtain ⟨rec, hmk, hwrap⟩ := except_bind_ok _ _ _ hok
  have hparse := parseRecord_roundtrip 1 (by omega) _ _ _ _ hmk hwrap
  apply get_ndef_of_parse_interpret _ 1 [0x54] _ _ hparse
  rw [interpretRecord_T, hmask,
    List.take_left' (List.length_map lang Char.toNat),
    asciiStrict_map_toNat lang hascii,
    List.drop_left' (List.length_map lang Char.toNat),
    utf8DecodeRepl_utf8]
  rfl

/-- vCard round-trip: decoding restores the full vCard text block. -/
theorem encode_vcard_roundtrip
    (name phone email org title url address note v : List Char) (out : List Nat)
    (hv : vcardString name phone email org title url address note = .ok v)
    (hok : encode_vcard name phone email org title url address note = .ok out) :
    get_ndef_payload_info out = .ok (some
      { type := S "text/vcard", tnf := 2, raw_payload := utf8 v,
        content_type := S "vCard", content := v }) := by
  unfold encode_vcard at hok
  rw [hv] at hok
  dsimp only [Except.bind] at hok
  obtain ⟨rec, hmk, hwrap⟩ := except_bind_ok _ _ _ hok
  have hparse := parseRecord_roundtrip 2 (by omega) _ _ _ _ hmk hwrap
  apply get_ndef_of_parse_interpret _ 2 (utf8 (S "text/vcard")) _ _ hparse
  rw [interpretRecord_vcard, utf8DecodeRepl_utf8]

/-- Inversion of `wscCredential`: the credential block layout. -/
theorem wscCredential_inv (ssid password authType : List Char) (cred : List Nat)
    (h : wscCredential ssid password authType = .ok cred) :
    cred = [0x10, 0x26, 0x00, 0x01, 0x01, 0x10, 0x45,
        (utf8 ssid).length / 256, (utf8 ssid).length % 256] ++
      (utf8 ssid ++
        ([0x10, 0x03, 0x00, 0x02, wscAuthVal authType / 256, wscAuthVal authType % 256] ++
          ([0x10, 0x0F, 0x00, 0x02, wscEncVal authType / 256, wscEncVal authType % 256] ++
            ((if password ≠ [] then [0x10, 0x27, (utf8 password).length / 256,
                (utf8 password).length % 256] ++ utf8 password else []) ++
              [0x10, 0x20, 0x00, 0x06, 255, 255, 255, 255, 255, 255])))) := by
  unfold wscCredential pack2 at h
  dsimp only at h
  by_cases hsl : (utf8 ssid).length < 65536
  · rw [if_pos hsl] at h
    dsimp only [Except.bind] at h
    by_cases hpw : password ≠ []
    · rw [if_pos hpw] at h
      by_cases hpl : (utf8 password).length < 65536
      · rw [if_pos hpl] at h
        dsimp only [Except.map] at h
        rw [if_pos hpw]
        cases h
        simp [List.replicate]
      · rw [if_neg hpl] at h
        dsimp only [Except.map] at h
        cases h
    · rw [if_neg hpw] at h
      dsimp only [Except.map] at h
      rw [if_neg hpw]
      cases h
      simp [List.replicate]
  · rw [if_neg hsl] at h
    dsimp only [Except.bind] at h
    cases h

theorem drop9_cons (a b c d e f g h i : Nat) (l : List Nat) :
    (a :: b :: c :: d :: e :: f :: g :: h :: i :: l).drop 9 = l := rfl

theorem drop4_cons (a b c d : Nat) (l : List Nat) :
    (a :: b :: c :: d :: l).drop 4 = l := rfl

theorem take2_cons (a b : Nat) (l : List Nat) :
    (a :: b :: l).take 2 = [a, b] := rfl

/-- WiFi round-trip: the decoder classifies the record as WiFi and keeps
the credential payload verbatim; the SSID bytes sit at offset 9 of the
credential block (their length in the two bytes before) and the auth-type
value in the attribute that follows them. -/
theorem encode_wifi_roundtrip (ssid password authType : List Char) (hidden : Bool)
    (cred : List Nat) (out : List Nat)
    (hcred : wscCredential ssid password authType = .ok cred)
    (hok : encode_wifi ssid password authType hidden = .ok out) :
    get_ndef_payload_info out = .ok (some
      { type := S "application/vnd.wfa.wsc", tnf := 2,
        raw_payload := [0x10, 0x0E, cred.length / 256, cred.length % 256] ++ cred,
        content_type := S "WiFi", content := S "[WiFi Configuration Data]" })
    ∧ pySlice cred 9 (9 + (utf8 ssid).length) = utf8 ssid
    ∧ pySlice cred (9 + (utf8 ssid).length + 4) (9 + (utf8 ssid).length + 6)
        = [wscAuthVal authType / 256, wscAuthVal authType % 256] := by
  have hstruct := wscCredential_inv ssid password authType cred hcred
  refine ⟨?_, ?_, ?_⟩
  · unfold encode_wifi pack2 at hok
    rw [hcred] at hok
    dsimp only [Except.bind] at hok
    by_cases hcl : cred.length < 65536
    · rw [if_pos hcl] at hok
      dsimp only [Except.bind] at hok
      obtain ⟨rec, hmk, hwrap⟩ := except_bind_ok _ _ _ hok
      have hparse := parseRecord_roundtrip 2 (by omega) _ _ _ _ hmk hwrap
      have hshape : ([0x10, 0x0E] ++ [cred.length / 256, cred.length % 256] ++ cred)
          = [0x10, 0x0E, cred.length / 256, cred.length % 256] ++ cred := by simp
      rw [hshape] at hparse
      exact get_ndef_of_parse_interpret _ 2 (utf8 (S "application/vnd.wfa.wsc")) _ _
        hparse (interpretRecord_wifi _)
    · rw [if_neg hcl] at hok
      dsimp only [Except.bind] at hok
      cases hok
  · rw [hstruct]
    unfold pySlice
    rw [show (9 : Nat) + (utf8 ssid).length - 9 = (utf8 ssid).length by omega]
    simp only [List.cons_append, List.nil_append]
    rw [drop9_cons, List.take_left]
  · rw [hstruct]
    unfold pySlice
    rw [show 9 + (utf8 ssid).length + 6 - (9 + (utf8 ssid).length + 4) = 2 by omega]
    rw [show 9 + (utf8 ssid).length + 4 = 9 + ((utf8 ssid).length + 4) by omega]
    simp only [List.cons_append, List.nil_append]
    rw [nine_cons_drop_add, drop_append_add, drop4_cons, take2_cons]

/-! ## Claim C1 -/

/-- **C1** — Round-trip: for every supported record kind, decoding the
bytes produced by encoding recovers the original semantic content: the URI
string including its (canonically lowercase, literally occurring) prefix,
the text plus language (ASCII language codes shorter than 64 bytes), the
vCard text block carrying the field set, and the WiFi credential payload
with the SSID bytes and auth-type value at their fixed attribute
positions. URI prefix compression is reversible for every entry of the
prefix table. In particular, encoding `https://example.com/path` yields a
URI record whose payload starts with prefix code 0x04 followed by
`example.com/path`, and decoding that image returns exactly
`https://example.com/path`. -/
theorem claim_C1_roundtrip :
    (∀ pc ∈ URI_PREFIXES, revLookupPrefix pc.2 = pc.1)
    ∧ encode_url (S "https://example.com/path") =
        .ok ([0x03, 0x15, 0xD1, 0x01, 0x11, 0x55] ++
          ((0x04 :: utf8 (S "example.com/path")) ++ [0xFE]))
    ∧ get_ndef_payload_info ([0x03, 0x15, 0xD1, 0x01, 0x11, 0x55] ++
        ((0x04 :: utf8 (S "example.com/path")) ++ [0xFE])) = .ok (some
        { type := S "U", tnf := 1, raw_payload := 0x04 :: utf8 (S "example.com/path"),
          content_type := S "URL", content := S "https://example.com/path",
          language := none })
    ∧ (∀ url out, pyStrip url = url →
        (∀ pc, sortedUriPrefixes.find? (fun q => q.1.isPrefixOf (pyLower url)) =
          some pc → pc.1.isPrefixOf url = true) →
        encode_url url = .ok out →
        ∃ payload, get_ndef_payload_info out = .ok (some
          { type := S "U", tnf := 1, raw_payload := payload,
            content_type := S "URL", content := url }))
    ∧ (∀ text lang out, pyStrip text = text →
        lang.all (fun c => c.toNat < 128) = true → lang.length < 64 →
        encode_text text lang = .ok out →
        get_ndef_payload_info out = .ok (some
          { type := S "T", tnf := 1,
            raw_payload := lang.length :: (lang.map Char.toNat ++ utf8 text),
            content_type := S "Text", content := text, language := some lang }))
    ∧ (∀ name phone email org title url address note v out,
        vcardString name phone email org title url address note = .ok v →
        encode_vcard name phone email org title url address note = .ok out →
        get_ndef_payload_info out = .ok (some
          { type := S "text/vcard", tnf := 2, raw_payload := utf8 v,
            content_type := S "vCard", content := v }))
    ∧ (∀ ssid password authType hidden cred out,
        wscCredential ssid password authType = .ok cred →
        encode_wifi ssid password authType hidden = .ok out →
        get_ndef_payload_info out = .ok (some
          { type := S "application/vnd.wfa.wsc", tnf := 2,
            raw_payload := [0x10, 0x0E, cred.length / 256, cred.length % 256] ++ cred,
            content_type := S "WiFi", content := S "[WiFi Configuration Data]" })
        ∧ pySlice cred 9 (9 + (utf8 ssid).length) = utf8 ssid
        ∧ pySlice cred (9 + (utf8 ssid).length + 4) (9 + (utf8 ssid).length + 6)
            = [wscAuthVal authType / 256, wscAuthVal authType % 256]) := by
  refine ⟨by decide, rfl, rfl, ?_, ?_, ?_, ?_⟩
  · exact fun url out h1 h2 h3 => encode_url_roundtrip url out h1 h2 h3
  · exact fun text lang out h1 h2 h3 h4 => encode_text_roundtrip text lang out h1 h2 h3 h4
  · exact fun name phone email org title url address note v out h1 h2 =>
      encode_vcard_roundtrip name phone email org title url address note v out h1 h2
  · exact fun ssid password authType hidden cred out h1 h2 =>
      encode_wifi_roundtrip ssid password authType hidden cred out h1 h2

/-- Witness for C1: the URL round-trip applied to the concrete input
`http://a` (prefix code 0x03), with every hypothesis discharged by
evaluation. -/
theorem claim_C1_roundtrip_witness :
    ∃ payload, get_ndef_payload_info [0x03, 0x06, 0xD1, 0x01, 0x02, 0x55, 0x03, 0x61, 0xFE]
      = .ok (some
        { type := S "U", tnf := 1, raw_payload := payload,
          content_type := S "URL", content := S "http://a", language := none }) :=
  claim_C1_roundtrip.2.2.2.1 (S "http://a")
    [0x03, 0x06, 0xD1, 0x01, 0x02, 0x55, 0x03, 0x61, 0xFE]
    (by decide) (fun pc h => by
      rw [show sortedUriPrefixes.find?
          (fun q => q.1.isPrefixOf (pyLower (S "http://a"))) =
          some (S "http://", 0x03) by decide] at h
      cases h
      decide) rfl

/-! ## Claim C2 -/

/-- TLV container integrity: starts 0x03, ends 0xFE, and the declared
length field (1-byte short form or `0xFF` + 2-byte big-endian long form)
equals the byte length of the enclosed NDEF message. -/
def tlvIntegrity (out : List Nat) : Prop :=
  out.head? = some 0x03 ∧ out.getLast? = some 0xFE ∧
  ∃ msg, (out = [0x03, msg.length] ++ msg ++ [0xFE] ∧ msg.length < 255) ∨
    (out = [0x03, 0xFF, msg.length / 256, msg.length % 256] ++ msg ++ [0xFE] ∧
      255 ≤ msg.length ∧ msg.length < 65536)

theorem wrapTlv_integrity (msg out : List Nat) (h : wrapTlv msg = .ok out) :
    tlvIntegrity out := by
  unfold wrapTlv pack2 at h
  by_cases hl : msg.length < 255
  · rw [if_pos hl] at h
    cases h
    refine ⟨rfl, ?_, msg, .inl ⟨rfl, hl⟩⟩
    rw [show ([0x03, msg.length] ++ msg ++ [0xFE]) = ([0x03, msg.length] ++ msg) ++ [0xFE]
      by simp]
    exact List.getLast?_concat _
  · rw [if_neg hl] at h
    by_cases h16 : msg.length < 65536
    · rw [if_pos h16] at h
      dsimp only [Except.map] at h
      cases h
      refine ⟨rfl, ?_, msg, .inr ⟨by simp, by omega, h16⟩⟩
      rw [show ([0x03, 0xFF] ++ [msg.length / 256, msg.length % 256] ++ msg ++ [0xFE])
        = ([0x03, 0xFF] ++ [msg.length / 256, msg.length % 256] ++ msg) ++ [0xFE] by simp]
      exact List.getLast?_concat _
    · rw [if_neg h16] at h
      dsimp only [Except.map] at h
      cases h

theorem tlv_of_mk_wrap {x : Except PyExc (List Nat)} {out : List Nat}
    (h : (x >>= wrapTlv) = .ok out) : tlvIntegrity out := by
  obtain ⟨msg, _, h2⟩ := except_bind_ok _ _ _ h
  exact wrapTlv_integrity msg out h2

/-- **C2** — Container integrity: for every input, the byte sequence
returned by any of the seven encoders begins with 0x03, ends with 0xFE,
and its declared TLV length field equals the byte length of the enclosed
NDEF message, using the single-byte form when the message is shorter than
255 bytes and the `{0xFF, 2-byte big-endian}` form otherwise. -/
theorem claim_C2_container_integrity :
    (∀ url out, encode_url url = .ok out → tlvIntegrity out)
    ∧ (∀ text lang out, encode_text text lang = .ok out → tlvIntegrity out)
    ∧ (∀ name phone email org title u address note out,
        encode_vcard name phone email org title u address note = .ok out →
        tlvIntegrity out)
    ∧ (∀ phone out, encode_phone phone = .ok out → tlvIntegrity out)
    ∧ (∀ email subject body out, encode_email email subject body = .ok out →
        tlvIntegrity out)
    ∧ (∀ platform username out, encode_social platform username = .ok out →
        tlvIntegrity out)
    ∧ (∀ ssid password authType hidden out,
        encode_wifi ssid password authType hidden = .ok out → tlvIntegrity out) := by
  have hurl : ∀ url out, encode_url url = .ok out → tlvIntegrity out := by
    intro url out h
    unfold encode_url at h
    exact tlv_of_mk_wrap h
  refine ⟨hurl, ?_, ?_, ?_, ?_, ?_, ?_⟩
  · intro text lang out h
    unfold encode_text at h
    obtain ⟨lb, _, h2⟩ := except_bind_ok _ _ _ h
    exact tlv_of_mk_wrap h2
  · intro name phone email org title u address note out h
    unfold encode_vcard at h
    obtain ⟨v, _, h2⟩ := except_bind_ok _ _ _ h
    exact tlv_of_mk_wrap h2
  · intro phone out h
    unfold encode_phone at h
    exact tlv_of_mk_wrap h
  · intro email subject body out h
    unfold encode_email at h
    exact tlv_of_mk_wrap h
  · intro platform username out h
    unfold encode_social at h
    dsimp only at h
    cases hm : SOCIAL_PLATFORMS.find?
        (fun pu => pu.1 == pyLower (pyStrip platform)) with
    | none => rw [hm] at h; cases h
    | some pu =>
      rw [hm] at h
      dsimp only at h
      exact hurl _ _ h
  · intro ssid password authType hidden out h
    unfold encode_wifi at h
    obtain ⟨cred, _, h2⟩ := except_bind_ok _ _ _ h
    obtain ⟨cl, _, h3⟩ := except_bind_ok _ _ _ h2
    exact tlv_of_mk_wrap h3

/-- Witness for C2: both TLV length encodings at concrete inputs — the
9-byte image of `encode_url "x"` (short form) and the image of a 300-`a`
text record (long form, message of 310 bytes). -/
theorem claim_C2_container_integrity_witness :
    tlvIntegrity [0x03, 0x06, 0xD1, 0x01, 0x02, 0x55, 0x00, 0x78, 0xFE]
    ∧ tlvIntegrity ([0x03, 0xFF, 0x01, 0x36, 0xC1, 0x01, 0x00, 0x00, 0x01, 0x2F,
        0x54, 0x02, 0x65, 0x6E] ++ List.replicate 300 0x61 ++ [0xFE]) :=
  ⟨claim_C2_container_integrity.1 (S "x")
      [0x03, 0x06, 0xD1, 0x01, 0x02, 0x55, 0x00, 0x78, 0xFE] rfl,
   claim_C2_container_integrity.2.1 (List.replicate 300 'a') (S "en")
      ([0x03, 0xFF, 0x01, 0x36, 0xC1, 0x01, 0x00, 0x00, 0x01, 0x2F,
        0x54, 0x02, 0x65, 0x6E] ++ List.replicate 300 0x61 ++ [0xFE]) (by rfl)⟩

/-! ## Claim C3 -/

/-- **C3** — Record header: for every record the encoder builds (all
encoders call `_make_ndef_record` with `is_first = is_last = True`), the
flag byte has message-begin (bit 7) and message-end (bit 6) set and its
low 3 bits equal the record's TNF; when the payload is at most 255 bytes
(in particular exactly 255) the short-record flag (bit 4) is set and the
payload length occupies one byte, and when it is 256 bytes or more the
short-record flag is clear and the payload length occupies four big-endian
bytes. -/
theorem claim_C3_record_header (t : Nat) (rt pl out : List Nat) (ht : t < 8)
    (h : mkNdefRecord t rt pl true true = .ok out) :
    ∃ flags rest, out = flags :: rest
      ∧ flags.testBit 7 = true ∧ flags.testBit 6 = true ∧ flags % 8 = t
      ∧ (pl.length ≤ 255 → flags.testBit 4 = true ∧
          out = flags :: rt.length :: pl.length :: (rt ++ pl))
      ∧ (256 ≤ pl.length → flags.testBit 4 = false ∧
          out = flags :: rt.length :: (pl.length / 16777216) ::
            (pl.length / 65536 % 256) :: (pl.length / 256 % 256) ::
            (pl.length % 256) :: (rt ++ pl)) := by
  unfold mkNdefRecord at h
  dsimp only at h
  by_cases hsr : pl.length ≤ 255
  · rw [if_pos hsr] at h
    by_cases hrt : rt.length < 256
    · rw [if_pos hrt] at h
      cases h
      refine ⟨(((t &&& 7) ||| 128) ||| 64) ||| 16,
        rt.length :: pl.length :: (rt ++ pl), by simp, ?_, ?_, ?_,
        fun _ => ⟨?_, by simp⟩, fun hc => absurd hc (by omega)⟩
      · interval_cases t <;> decide
      · interval_cases t <;> decide
      · interval_cases t <;> decide
      · interval_cases t <;> decide
    · rw [if_neg hrt] at h; cases h
  · rw [if_neg hsr] at h
    by_cases hrt : rt.length < 256
    · rw [if_pos hrt] at h
      unfold pack4 at h
      by_cases hp4 : pl.length < 4294967296
      · rw [if_pos hp4] at h
        dsimp only [Except.map] at h
        cases h
        refine ⟨((t &&& 7) ||| 128) ||| 64,
          rt.length :: (pl.length / 16777216) :: (pl.length / 65536 % 256) ::
            (pl.length / 256 % 256) :: (pl.length % 256) :: (rt ++ pl),
          by simp, ?_, ?_, ?_, fun hc => absurd hc (by omega),
          fun _ => ⟨?_, by simp⟩⟩
        · interval_cases t <;> decide
        · interval_cases t <;> decide
        · interval_cases t <;> decide
        · interval_cases t <;> decide
      · rw [if_neg hp4] at h
        dsimp only [Except.map] at h
        cases h
    · rw [if_neg hrt] at h; cases h

/-- Witness for C3: the header facts at the concrete record
`_make_ndef_record(tnf=1, b"U", bytes([0x00, 0x78]))`. -/
theorem claim_C3_record_header_witness :
    ∃ flags rest, ([0xD1, 0x01, 0x02, 0x55, 0x00, 0x78] : List Nat) = flags :: rest
      ∧ flags.testBit 7 = true ∧ flags.testBit 6 = true ∧ flags % 8 = 1
      ∧ (([0x00, 0x78] : List Nat).length ≤ 255 → flags.testBit 4 = true ∧
          ([0xD1, 0x01, 0x02, 0x55, 0x00, 0x78] : List Nat)
            = flags :: ([0x55] : List Nat).length :: ([0x00, 0x78] : List Nat).length ::
              ([0x55] ++ [0x00, 0x78]))
      ∧ (256 ≤ ([0x00, 0x78] : List Nat).length → flags.testBit 4 = false ∧
          ([0xD1, 0x01, 0x02, 0x55, 0x00, 0x78] : List Nat)
            = flags :: ([0x55] : List Nat).length ::
              (([0x00, 0x78] : List Nat).length / 16777216) ::
              (([0x00, 0x78] : List Nat).length / 65536 % 256) ::
              (([0x00, 0x78] : List Nat).length / 256 % 256) ::
              (([0x00, 0x78] : List Nat).length % 256) :: ([0x55] ++ [0x00, 0x78])) :=
  claim_C3_record_header 1 [0x55] [0x00, 0x78] [0xD1, 0x01, 0x02, 0x55, 0x00, 0x78]
    (by omega) rfl

/-! ## Claim C4 -/

/-- **C4** — Decoder safety. Inputs shorter than 5 bytes (any 4-byte
truncation) and inputs whose first byte is not 0x03 do return the
"no result" value, but the decoder is *not* exception-free: a well-formed
TLV holding a Text record whose language-code bytes are non-ASCII (e.g.
`03 05 D1 01 02 54 01 80`) reaches the strict `payload[1:1+lang_len]
.decode("ascii")`, whose `UnicodeDecodeError` is not caught by the
`except (IndexError, struct.error)` handler, so `get_ndef_payload_info`
raises instead of returning `None` — contradicting the claim (and the
code's own degrade-to-`None` design). -/
theorem claim_C4_decoder_never_raises :
    (∀ data : List Nat, get_ndef_payload_info (data.take 4) = .ok none)
    ∧ get_ndef_payload_info [0x05, 0x05, 0xD1, 0x01, 0x02, 0x54, 0x01, 0x02]
        = .ok none
    ∧ get_ndef_payload_info [0x03, 0x05, 0xD1, 0x01, 0x02, 0x54, 0x01, 0x80]
        = .error () := by
  refine ⟨?_, rfl, rfl⟩
  intro data
  have h : (data.take 4).length < 5 := by
    have := List.length_take_le 4 data
    omega
  unfold get_ndef_payload_info parseRecord
  rw [if_pos h]

/-! ## Claim C5 -/

theorem utf8_replicate_a (n : Nat) :
    utf8 (List.replicate n 'a') = List.replicate n 97 := by
  induction n with
  | zero => rfl
  | succ n ih =>
    rw [List.replicate_succ, List.replicate_succ]
    show utf8Char 'a' ++ utf8 (List.replicate n 'a') = 97 :: List.replicate n 97
    rw [ih]
    rfl

theorem dropWhile_isSpace_replicate_a (m : Nat) :
    List.dropWhile isSpace (List.replicate m 'a') = List.replicate m 'a' := by
  cases m with
  | zero => rfl
  | succ k =>
    rw [List.replicate_succ, List.dropWhile_cons]
    simp [isSpace]

theorem pyStrip_replicate_a (n : Nat) :
    pyStrip (List.replicate n 'a') = List.replicate n 'a' := by
  unfold pyStrip
  rw [dropWhile_isSpace_replicate_a, List.reverse_replicate,
    dropWhile_isSpace_replicate_a, List.reverse_replicate]

theorem ok_bind_wrapTlv (r : List Nat) :
    ((Except.ok r : Except PyExc (List Nat)) >>= wrapTlv) = wrapTlv r := rfl

/-- A record whose payload needs 65536 bytes or more cannot be wrapped:
`struct.pack(">H", …)` in `_wrap_tlv` raises `struct.error`. -/
theorem mk_wrap_overflow (t : Nat) (rt pl : List Nat) (hrt : rt.length < 256)
    (hbig : 65536 ≤ pl.length) :
    (mkNdefRecord t rt pl true true >>= wrapTlv) = .error .structError := by
  unfold mkNdefRecord
  dsimp only
  rw [if_neg (by omega), if_pos hrt]
  simp only [eq_self_iff_true, if_true]
  unfold pack4
  split_ifs with h4
  · dsimp only [Except.map]
    rw [ok_bind_wrapTlv]
    unfold wrapTlv
    split_ifs with h1
    · exfalso
      simp only [List.length_append, List.length_cons, List.length_nil] at h1
      omega
    · unfold pack2
      split_ifs with h2
      · exfalso
        simp only [List.length_append, List.length_cons, List.length_nil] at h2
        omega
      · rfl
  · dsimp only [Except.map]
    rfl

/-- Any text whose UTF-8 form needs 65536 bytes or more makes
`encode_text` raise `struct.error`. -/
theorem encode_text_overflow (text lang : List Char)
    (hl : lang.all (fun c => c.toNat < 128) = true)
    (hbig : 65536 ≤ (utf8 (pyStrip text)).length) :
    encode_text text lang = .error .structError := by
  unfold encode_text
  rw [encodeAscii_ok lang hl]
  dsimp only [Except.bind]
  apply mk_wrap_overflow
  · norm_num
  · simp only [List.length_cons, List.length_append]
    omega

/-- Counterexample to C5: `encode_vcard` raises `IndexError` on a
whitespace-only name, `encode_text` raises `UnicodeEncodeError` on a
non-ASCII language code, and a 70000-character text overflows the 16-bit
TLV length field, raising `struct.error` — so not every non-social encoder
is total. -/
theorem claim_C5_totality_counterexample :
    encode_vcard (S "  ") [] [] [] [] [] [] [] = .error .indexError
    ∧ encode_text (S "hi") (S "é") = .error .unicodeError
    ∧ encode_text (List.replicate 70000 'a') (S "en") = .error .structError := by
  refine ⟨rfl, rfl, ?_⟩
  apply encode_text_overflow
  · rfl
  · rw [pyStrip_replicate_a, utf8_replicate_a, List.length_replicate]
    omega

theorem mk_wrap_ok (t : Nat) (rt pl : List Nat) (hrt : rt.length < 256)
    (hpl : pl.length ≤ 65200) :
    ∃ out, (mkNdefRecord t rt pl true true >>= wrapTlv) = .ok out := by
  unfold mkNdefRecord
  dsimp only
  simp only [eq_self_iff_true, if_true]
  by_cases hsr : pl.length ≤ 255
  · rw [if_pos hsr, if_pos hrt, ok_bind_wrapTlv]
    unfold wrapTlv
    split_ifs with h1
    · exact ⟨_, rfl⟩
    · unfold pack2
      split_ifs with h2
      · exact ⟨_, rfl⟩
      · exfalso
        simp only [List.length_append, List.length_cons, List.length_nil] at h2
        omega
  · rw [if_neg hsr, if_pos hrt]
    unfold pack4
    rw [if_pos (by omega)]
    dsimp only [Except.map]
    rw [ok_bind_wrapTlv]
    unfold wrapTlv
    split_ifs with h1
    · exact ⟨_, rfl⟩
    · unfold pack2
      split_ifs with h2
      · exact ⟨_, rfl⟩
      · exfalso
        simp only [List.length_append, List.length_cons, List.length_nil] at h2
        omega

theorem utf8_append (a b : List Char) : utf8 (a ++ b) = utf8 a ++ utf8 b := by
  unfold utf8
  exact List.flatMap_append a b utf8Char

theorem utf8_length_drop_le (l : List Char) (k : Nat) :
    (utf8 (l.drop k)).length ≤ (utf8 l).length := by
  conv_rhs => rw [← List.take_append_drop k l]
  rw [utf8_append, List.length_append]
  omega

theorem utf8_sublist_length {l₁ l₂ : List Char} (h : List.Sublist l₁ l₂) :
    (utf8 l₁).length ≤ (utf8 l₂).length := by
  induction h with
  | slnil => exact Nat.le_refl _
  | cons a h ih =>
    show (utf8 _).length ≤ (utf8Char a ++ utf8 _).length
    rw [List.length_append]
    omega
  | cons₂ a h ih =>
    show (utf8Char a ++ utf8 _).length ≤ (utf8Char a ++ utf8 _).length
    rw [List.length_append, List.length_append]
    omega

theorem pyStrip_sublist (l : List Char) : List.Sublist (pyStrip l) l := by
  unfold pyStrip
  have h1 : List.Sublist (List.dropWhile isSpace l) l := List.dropWhile_sublist _
  have h2 : List.Sublist (List.dropWhile isSpace (List.dropWhile isSpace l).reverse)
      (List.dropWhile isSpace l).reverse := List.dropWhile_sublist _
  have h3 := h2.reverse
  rw [List.reverse_reverse] at h3
  exact h3.trans h1

theorem utf8_pyStrip_le (l : List Char) :
    (utf8 (pyStrip l)).length ≤ (utf8 l).length :=
  utf8_sublist_length (pyStrip_sublist l)

theorem mk_wrap_not_valueError (t : Nat) (rt pl : List Nat) (m : List Char) :
    (mkNdefRecord t rt pl true true >>= wrapTlv) ≠ .error (.valueError m) := by
  intro h
  unfold mkNdefRecord at h
  dsimp only at h
  simp only [eq_self_iff_true, if_true] at h
  by_cases hsr : pl.length ≤ 255
  · rw [if_pos hsr] at h
    by_cases hrt : rt.length < 256
    · rw [if_pos hrt, ok_bind_wrapTlv] at h
      unfold wrapTlv pack2 at h
      split_ifs at h <;> simp_all [Except.map]
    · rw [if_neg hrt] at h
      simp [Bind.bind, Except.bind] at h
  · rw [if_neg hsr] at h
    by_cases hrt : rt.length < 256
    · rw [if_pos hrt] at h
      unfold pack4 at h
      split_ifs at h
      · dsimp only [Except.map] at h
        rw [ok_bind_wrapTlv] at h
        unfold wrapTlv pack2 at h
        split_ifs at h <;> simp_all [Except.map]
      · dsimp only [Except.map] at h
        simp [Bind.bind, Except.bind] at h
    · rw [if_neg hrt] at h
      simp [Bind.bind, Except.bind] at h

theorem encode_url_not_valueError (url : List Char) (m : List Char) :
    encode_url url ≠ .error (.valueError m) := by
  unfold encode_url
  dsimp only
  exact mk_wrap_not_valueError _ _ _ _

theorem any_not_space_dropWhile (l : List Char)
    (h : l.any (fun c => !(isSpace c)) = true) :
    (l.dropWhile isSpace).any (fun c => !(isSpace c)) = true := by
  induction l with
  | nil => simp at h
  | cons c t ih =>
    rw [List.dropWhile_cons]
    by_cases hc : isSpace c = true
    · rw [if_pos hc]
      apply ih
      simp only [List.any_cons, hc, Bool.not_true, Bool.false_or] at h
      exact h
    · rw [if_neg hc]
      exact h

theorem dropWhile_ne_nil_of_any (l : List Char)
    (h : l.any (fun c => !(isSpace c)) = true) :
    l.dropWhile isSpace ≠ [] := by
  induction l with
  | nil => simp at h
  | cons c t ih =>
    rw [List.dropWhile_cons]
    by_cases hc : isSpace c = true
    · rw [if_pos hc]
      apply ih
      simp only [List.any_cons, hc, Bool.not_true, Bool.false_or] at h
      exact h
    · rw [if_neg hc]
      simp

theorem any_pyStrip (l : List Char) (h : l.any (fun c => !(isSpace c)) = true) :
    (pyStrip l).any (fun c => !(isSpace c)) = true := by
  unfold pyStrip
  rw [List.any_reverse]
  apply any_not_space_dropWhile
  rw [List.any_reverse]
  exact any_not_space_dropWhile _ h

/-- The vCard text block exists whenever the name has a non-whitespace
character (so `name.strip().split(maxsplit=1)` is non-empty). -/
theorem vcardString_ok (name phone email org title url address note : List Char)
    (h : name.any (fun c => !(isSpace c)) = true) :
    ∃ v, vcardString name phone email org title url address note = .ok v := by
  unfold vcardString splitFirst
  dsimp only
  have hne : (pyStrip name).dropWhile isSpace ≠ [] :=
    dropWhile_ne_nil_of_any _ (any_pyStrip _ h)
  rw [if_neg hne]
  by_cases hr : (List.dropWhile isSpace (List.dropWhile (fun c => !(isSpace c))
      (List.dropWhile isSpace (pyStrip name)))) = []
  · rw [if_pos hr]
    exact ⟨_, rfl⟩
  · rw [if_neg hr]
    exact ⟨_, rfl⟩

theorem intercalate_single (sep x : List Char) : List.intercalate sep [x] = x := by
  simp [List.intercalate]

theorem intercalate_pair (sep x y : List Char) :
    List.intercalate sep [x, y] = x ++ sep ++ y := by
  simp [List.intercalate, List.intersperse]

theorem wscCredential_ok_of_bounds (ssid pw auth : List Char)
    (hs : (utf8 ssid).length ≤ 30000) (hp : (utf8 pw).length ≤ 30000) :
    ∃ cred, wscCredential ssid pw auth = .ok cred ∧ cred.length ≤ 60100 := by
  unfold wscCredential pack2
  dsimp only
  rw [if_pos (by omega)]
  dsimp only [Except.bind]
  by_cases hpw : pw ≠ []
  · rw [if_pos hpw, if_pos (by omega)]
    dsimp only [Except.map]
    refine ⟨_, rfl, ?_⟩
    simp only [List.length_append, List.length_cons, List.length_nil,
      List.length_replicate]
    omega
  · rw [if_neg hpw]
    dsimp only [Except.map]
    refine ⟨_, rfl, ?_⟩
    simp only [List.length_append, List.length_cons, List.length_nil,
      List.length_replicate]
    omega

/-- **C5 (amended)** — `encode_social` signals the explicit
"Unknown platform" `ValueError` exactly when the normalized platform name
is not in the table. The other encoders are *not* total (see the
counterexample), but are total on inputs that fit the format:
`encode_url`, `encode_phone` and `encode_email` succeed whenever their
UTF-8 content is small enough for the 16-bit TLV length field;
`encode_text` additionally needs an ASCII language code; `encode_vcard`
needs a name with a non-whitespace character; `encode_wifi` needs the
SSID and password to fit their 16-bit WSC length fields. -/
theorem claim_C5_amended_totality :
    (∀ platform username,
      (∃ m, encode_social platform username = .error (.valueError m)) ↔
      SOCIAL_PLATFORMS.find? (fun pu => pu.1 == pyLower (pyStrip platform)) = none)
    ∧ (∀ url, (utf8 url).length ≤ 65000 → ∃ out, encode_url url = .ok out)
    ∧ (∀ text lang, lang.all (fun c => c.toNat < 128) = true →
        (utf8 text).length + lang.length ≤ 65000 →
        ∃ out, encode_text text lang = .ok out)
    ∧ (∀ name phone email org title url address note,
        name.any (fun c => !(isSpace c)) = true →
        ∃ v, vcardString name phone email org title url address note = .ok v)
    ∧ (∀ name phone email org title url address note v,
        vcardString name phone email org title url address note = .ok v →
        (utf8 v).length ≤ 65000 →
        ∃ out, encode_vcard name phone email org title url address note = .ok out)
    ∧ (∀ phone, (utf8 phone).length ≤ 65000 → ∃ out, encode_phone phone = .ok out)
    ∧ (∀ email subject body,
        (utf8 email).length + (utf8 subject).length + (utf8 body).length ≤ 60000 →
        ∃ out, encode_email email subject body = .ok out)
    ∧ (∀ ssid password authType hidden,
        (utf8 ssid).length ≤ 30000 → (utf8 password).length ≤ 30000 →
        ∃ out, encode_wifi ssid password authType hidden = .ok out) := by
  refine ⟨?_, ?_, ?_, ?_, ?_, ?_, ?_, ?_⟩
  · intro platform username
    constructor
    · rintro ⟨m, hm⟩
      cases hfind : SOCIAL_PLATFORMS.find?
          (fun pu => pu.1 == pyLower (pyStrip platform)) with
      | none => rfl
      | some pu =>
        exfalso
        unfold encode_social at hm
        dsimp only at hm
        rw [hfind] at hm
        exact encode_url_not_valueError _ _ hm
    · intro hnone
      unfold encode_social
      dsimp only
      rw [hnone]
      exact ⟨_, rfl⟩
  · intro url h
    unfold encode_url
    dsimp only
    apply mk_wrap_ok
    · norm_num
    · simp only [List.length_cons]
      cases hfind : sortedUriPrefixes.find?
          (fun pc => pc.1.isPrefixOf (pyLower (pyStrip url))) with
      | none =>
        dsimp only
        have := utf8_pyStrip_le url
        omega
      | some pc =>
        dsimp only
        have h1 := utf8_length_drop_le (pyStrip url) pc.1.length
        have h2 := utf8_pyStrip_le url
        omega
  · intro text lang hl hb
    unfold encode_text
    rw [encodeAscii_ok lang hl]
    dsimp only [Except.bind]
    apply mk_wrap_ok
    · norm_num
    · simp only [List.length_cons, List.length_append, List.length_map]
      have := utf8_pyStrip_le text
      omega
  · exact vcardString_ok
  · intro name phone email org title url address note v hv hb
    unfold encode_vcard
    rw [hv]
    dsimp only [Except.bind]
    apply mk_wrap_ok
    · decide
    · omega
  · intro phone h
    unfold encode_phone
    dsimp only
    apply mk_wrap_ok
    · norm_num
    · simp only [List.length_cons]
      have h1 := utf8_sublist_length
        (List.filter_sublist (l := pyStrip phone) (p := fun c => c ≠ ' ' && c ≠ '-'))
      have h2 := utf8_pyStrip_le phone
      omega
  · intro email subject body hb
    unfold encode_email
    dsimp only
    apply mk_wrap_ok
    · norm_num
    · simp only [List.length_cons]
      have he := utf8_pyStrip_le email
      by_cases hs : subject ≠ [] <;> by_cases hbo : body ≠ []
      · rw [if_pos hs, if_pos hbo]
        rw [if_pos (by simp)]
        simp only [List.cons_append, List.nil_append]
        rw [intercalate_pair]
        simp only [utf8_append, List.length_append]
        have e1 : (utf8 (S "?")).length = 1 := rfl
        have e2 : (utf8 (S "subject=")).length = 8 := rfl
        have e3 : (utf8 (S "&")).length = 1 := rfl
        have e4 : (utf8 (S "body=")).length = 5 := rfl
        omega
      · rw [if_pos hs, if_neg hbo]
        rw [if_pos (by simp)]
        simp only [List.append_nil]
        rw [intercalate_single]
        simp only [utf8_append, List.length_append]
        have e1 : (utf8 (S "?")).length = 1 := rfl
        have e2 : (utf8 (S "subject=")).length = 8 := rfl
        omega
      · rw [if_neg hs, if_pos hbo]
        rw [if_pos (by simp)]
        simp only [List.nil_append]
        rw [intercalate_single]
        simp only [utf8_append, List.length_append]
        have e1 : (utf8 (S "?")).length = 1 := rfl
        have e4 : (utf8 (S "body=")).length = 5 := rfl
        omega
      · rw [if_neg hs, if_neg hbo]
        rw [if_neg (by simp)]
        omega
  · intro ssid password authType hidden hs hp
    obtain ⟨cred, hcred, hlen⟩ := wscCredential_ok_of_bounds ssid password authType hs hp
    unfold encode_wifi
    rw [hcred]
    dsimp only [Except.bind]
    unfold pack2
    rw [if_pos (by omega)]
    dsimp only [Except.bind]
    apply mk_wrap_ok
    · decide
    · simp only [List.length_append, List.length_cons, List.length_nil]
      omega

/-- Witness for the amended C5, applying it at concrete inputs. -/
theorem claim_C5_amended_totality_witness :
    (∃ m, encode_social (S "myspace") (S "bob") = .error (.valueError m))
    ∧ (∃ out, encode_url (S "https://e.com") = .ok out)
    ∧ (∃ out, encode_text (S "hi") (S "en") = .ok out)
    ∧ (∃ v, vcardString (S "Ada Lovelace") [] [] [] [] [] [] [] = .ok v)
    ∧ (∃ out, encode_phone (S "123") = .ok out)
    ∧ (∃ out, encode_email (S "a@b.c") (S "s") (S "b") = .ok out)
    ∧ (∃ out, encode_wifi (S "N") (S "p") (S "WPA2") false = .ok out) :=
  ⟨(claim_C5_amended_totality.1 (S "myspace") (S "bob")).mpr (by decide),
   claim_C5_amended_totality.2.1 (S "https://e.com") (by decide),
   claim_C5_amended_totality.2.2.1 (S "hi") (S "en") (by decide) (by decide),
   claim_C5_amended_totality.2.2.2.1 (S "Ada Lovelace") [] [] [] [] [] [] [] (by decide),
   claim_C5_amended_totality.2.2.2.2.2.1 (S "123") (by decide),
   claim_C5_amended_totality.2.2.2.2.2.2.1 (S "a@b.c") (S "s") (S "b") (by decide),
   claim_C5_amended_totality.2.2.2.2.2.2.2 (S "N") (S "p") (S "WPA2") false
     (by decide) (by decide)⟩

/-! ## Claim C6 -/

/-- Counterexample to C6: the auth map sends `"WPA"` to 0x0002, not to the
claimed 0x0020 — visible in the credential built for auth type `"WPA"`
(auth attribute `10 03 00 02 00 02`). -/
theorem claim_C6_wifi_counterexample :
    wscAuthVal (S "WPA") = 0x0002
    ∧ wscAuthVal (S "WPA") ≠ 0x0020
    ∧ wscCredential (S "HomeNet") (S "secret123") (S "WPA")
        = .ok [0x10, 0x26, 0x00, 0x01, 0x01,
               0x10, 0x45, 0x00, 0x07, 72, 111, 109, 101, 78, 101, 116,
               0x10, 0x03, 0x00, 0x02, 0x00, 0x02,
               0x10, 0x0F, 0x00, 0x02, 0x00, 0x04,
               0x10, 0x27, 0x00, 0x09, 115, 101, 99, 114, 101, 116, 49, 50, 51,
               0x10, 0x20, 0x00, 0x06, 255, 255, 255, 255, 255, 255] := by
  refine ⟨rfl, by decide, rfl⟩

/-- **C6 (amended)** — `encode_wifi` produces a MIME record of type
`application/vnd.wfa.wsc` whose payload is one outer Credential attribute
containing the nested network-index, SSID, auth-type, encryption-type,
network-key (when a password is given) and broadcast-MAC attributes, each
as `{2-byte ID, 2-byte length, value}`. The auth-type value is 0x0001 with
encryption 0x0001 when the auth string upper-cases to `OPEN`, 0x0002 (with
encryption 0x0004) when it upper-cases to `WPA`, and 0x0020 with
encryption 0x0004 for everything else, unrecognized strings included. The
`HomeNet`/`secret123`/`WPA2` scenario yields the SSID bytes, auth value
0x0020 and encryption value 0x0004 in the nested attributes. -/
theorem claim_C6_wifi_amended :
    (∀ authType, wscAuthVal authType =
      if pyUpper authType = S "OPEN" then 0x0001
      else if pyUpper authType = S "WPA" then 0x0002 else 0x0020)
    ∧ (∀ authType, wscEncVal authType =
      if pyUpper authType = S "OPEN" then 0x0001 else 0x0004)
    ∧ (∀ ssid password authType hidden cred out,
        wscCredential ssid password authType = .ok cred →
        encode_wifi ssid password authType hidden = .ok out →
        get_ndef_payload_info out = .ok (some
          { type := S "application/vnd.wfa.wsc", tnf := 2,
            raw_payload := [0x10, 0x0E, cred.length / 256, cred.length % 256] ++ cred,
            content_type := S "WiFi", content := S "[WiFi Configuration Data]" })
        ∧ cred = [0x10, 0x26, 0x00, 0x01, 0x01, 0x10, 0x45,
            (utf8 ssid).length / 256, (utf8 ssid).length % 256] ++
          (utf8 ssid ++
            ([0x10, 0x03, 0x00, 0x02, wscAuthVal authType / 256, wscAuthVal authType % 256] ++
              ([0x10, 0x0F, 0x00, 0x02, wscEncVal authType / 256, wscEncVal authType % 256] ++
                ((if password ≠ [] then [0x10, 0x27, (utf8 password).length / 256,
                    (utf8 password).length % 256] ++ utf8 password else []) ++
                  [0x10, 0x20, 0x00, 0x06, 255, 255, 255, 255, 255, 255])))))
    ∧ wscCredential (S "HomeNet") (S "secret123") (S "WPA2")
        = .ok [0x10, 0x26, 0x00, 0x01, 0x01,
               0x10, 0x45, 0x00, 0x07, 72, 111, 109, 101, 78, 101, 116,
               0x10, 0x03, 0x00, 0x02, 0x00, 0x20,
               0x10, 0x0F, 0x00, 0x02, 0x00, 0x04,
               0x10, 0x27, 0x00, 0x09, 115, 101, 99, 114, 101, 116, 49, 50, 51,
               0x10, 0x20, 0x00, 0x06, 255, 255, 255, 255, 255, 255]
    ∧ get_ndef_payload_info
        [0x03, 0x51, 0xD2, 0x17, 0x37,
         97, 112, 112, 108, 105, 99, 97, 116, 105, 111, 110, 47, 118, 110, 100,
         46, 119, 102, 97, 46, 119, 115, 99,
         0x10, 0x0E, 0x00, 0x33,
         0x10, 0x26, 0x00, 0x01, 0x01,
         0x10, 0x45, 0x00, 0x07, 72, 111, 109, 101, 78, 101, 116,
         0x10, 0x03, 0x00, 0x02, 0x00, 0x20,
         0x10, 0x0F, 0x00, 0x02, 0x00, 0x04,
         0x10, 0x27, 0x00, 0x09, 115, 101, 99, 114, 101, 116, 49, 50, 51,
         0x10, 0x20, 0x00, 0x06, 255, 255, 255, 255, 255, 255, 0xFE]
      = .ok (some
        { type := S "application/vnd.wfa.wsc", tnf := 2,
          raw_payload := [0x10, 0x0E, 0x00, 0x33,
            0x10, 0x26, 0x00, 0x01, 0x01,
            0x10, 0x45, 0x00, 0x07, 72, 111, 109, 101, 78, 101, 116,
            0x10, 0x03, 0x00, 0x02, 0x00, 0x20,
            0x10, 0x0F, 0x00, 0x02, 0x00, 0x04,
            0x10, 0x27, 0x00, 0x09, 115, 101, 99, 114, 101, 116, 49, 50, 51,
            0x10, 0x20, 0x00, 0x06, 255, 255, 255, 255, 255, 255],
          content_type := S "WiFi", content := S "[WiFi Configuration Data]",
          language := none })
    ∧ encode_wifi (S "HomeNet") (S "secret123") (S "WPA2") false
      = .ok [0x03, 0x51, 0xD2, 0x17, 0x37,
         97, 112, 112, 108, 105, 99, 97, 116, 105, 111, 110, 47, 118, 110, 100,
         46, 119, 102, 97, 46, 119, 115, 99,
         0x10, 0x0E, 0x00, 0x33,
         0x10, 0x26, 0x00, 0x01, 0x01,
         0x10, 0x45, 0x00, 0x07, 72, 111, 109, 101, 78, 101, 116,
         0x10, 0x03, 0x00, 0x02, 0x00, 0x20,
         0x10, 0x0F, 0x00, 0x02, 0x00, 0x04,
         0x10, 0x27, 0x00, 0x09, 115, 101, 99, 114, 101, 116, 49, 50, 51,
         0x10, 0x20, 0x00, 0x06, 255, 255, 255, 255, 255, 255, 0xFE] := by
  refine ⟨?_, ?_, ?_, rfl, rfl, rfl⟩
  · intro authType
    unfold wscAuthVal
    dsimp only
    by_cases h1 : pyUpper authType = S "OPEN"
    · rw [h1]
      decide
    · rw [if_neg h1]
      by_cases h2 : pyUpper authType = S "WPA"
      · rw [h2]
        decide
      · rw [if_neg h2]
        by_cases h3 : pyUpper authType = S "WPA2"
        · rw [h3]
          decide
        · by_cases h4 : pyUpper authType = S "WPA2-EAP"
          · rw [h4]
            decide
          · rw [List.find?_cons_of_neg, List.find?_cons_of_neg,
              List.find?_cons_of_neg, List.find?_cons_of_neg]
            · rfl
            · simp only [beq_iff_eq]
              exact fun he => h4 he.symm
            · simp only [beq_iff_eq]
              exact fun he => h3 he.symm
            · simp only [beq_iff_eq]
              exact fun he => h2 he.symm
            · simp only [beq_iff_eq]
              exact fun he => h1 he.symm
  · intro authType
    unfold wscEncVal
    by_cases h1 : pyUpper authType = S "OPEN"
    · rw [if_pos h1, if_neg (by simp [h1])]
    · rw [if_neg h1, if_pos h1]
  · intro ssid password authType hidden cred out hcred hok
    exact ⟨(encode_wifi_roundtrip ssid password authType hidden cred out hcred hok).1,
      wscCredential_inv ssid password authType cred hcred⟩

/-- Witness for the amended C6: the credential-layout clause applied to
the `HomeNet`/`secret123`/`WPA2` scenario. -/
theorem claim_C6_wifi_amended_witness :
    get_ndef_payload_info
        [0x03, 0x51, 0xD2, 0x17, 0x37,
         97, 112, 112, 108, 105, 99, 97, 116, 105, 111, 110, 47, 118, 110, 100,
         46, 119, 102, 97, 46, 119, 115, 99,
         0x10, 0x0E, 0x00, 0x33,
         0x10, 0x26, 0x00, 0x01, 0x01,
         0x10, 0x45, 0x00, 0x07, 72, 111, 109, 101, 78, 101, 116,
         0x10, 0x03, 0x00, 0x02, 0x00, 0x20,
         0x10, 0x0F, 0x00, 0x02, 0x00, 0x04,
         0x10, 0x27, 0x00, 0x09, 115, 101, 99, 114, 101, 116, 49, 50, 51,
         0x10, 0x20, 0x00, 0x06, 255, 255, 255, 255, 255, 255, 0xFE]
      = .ok (some
        { type := S "application/vnd.wfa.wsc", tnf := 2,
          raw_payload := [0x10, 0x0E, 0x00, 0x33] ++
            [0x10, 0x26, 0x00, 0x01, 0x01,
             0x10, 0x45, 0x00, 0x07, 72, 111, 109, 101, 78, 101, 116,
             0x10, 0x03, 0x00, 0x02, 0x00, 0x20,
             0x10, 0x0F, 0x00, 0x02, 0x00, 0x04,
             0x10, 0x27, 0x00, 0x09, 115, 101, 99, 114, 101, 116, 49, 50, 51,
             0x10, 0x20, 0x00, 0x06, 255, 255, 255, 255, 255, 255],
          content_type := S "WiFi", content := S "[WiFi Configuration Data]",
          language := none })
    ∧ ([0x10, 0x26, 0x00, 0x01, 0x01,
        0x10, 0x45, 0x00, 0x07, 72, 111, 109, 101, 78, 101, 116,
        0x10, 0x03, 0x00, 0x02, 0x00, 0x20,
        0x10, 0x0F, 0x00, 0x02, 0x00, 0x04,
        0x10, 0x27, 0x00, 0x09, 115, 101, 99, 114, 101, 116, 49, 50, 51,
        0x10, 0x20, 0x00, 0x06, 255, 255, 255, 255, 255, 255] : List Nat)
      = [0x10, 0x26, 0x00, 0x01, 0x01, 0x10, 0x45,
          (utf8 (S "HomeNet")).length / 256, (utf8 (S "HomeNet")).length % 256] ++
        (utf8 (S "HomeNet") ++
          ([0x10, 0x03, 0x00, 0x02, wscAuthVal (S "WPA2") / 256,
              wscAuthVal (S "WPA2") % 256] ++
            ([0x10, 0x0F, 0x00, 0x02, wscEncVal (S "WPA2") / 256,
                wscEncVal (S "WPA2") % 256] ++
              ((if (S "secret123") ≠ [] then
                  [0x10, 0x27, (utf8 (S "secret123")).length / 256,
                   (utf8 (S "secret123")).length % 256] ++ utf8 (S "secret123")
                else []) ++
                [0x10, 0x20, 0x00, 0x06, 255, 255, 255, 255, 255, 255])))) :=
  claim_C6_wifi_amended.2.2.1 (S "HomeNet") (S "secret123") (S "WPA2") false
    [0x10, 0x26, 0x00, 0x01, 0x01,
     0x10, 0x45, 0x00, 0x07, 72, 111, 109, 101, 78, 101, 116,
     0x10, 0x03, 0x00, 0x02, 0x00, 0x20,
     0x10, 0x0F, 0x00, 0x02, 0x00, 0x04,
     0x10, 0x27, 0x00, 0x09, 115, 101, 99, 114, 101, 116, 49, 50, 51,
     0x10, 0x20, 0x00, 0x06, 255, 255, 255, 255, 255, 255]
    [0x03, 0x51, 0xD2, 0x17, 0x37,
     97, 112, 112, 108, 105, 99, 97, 116, 105, 111, 110, 47, 118, 110, 100,
     46, 119, 102, 97, 46, 119, 115, 99,
     0x10, 0x0E, 0x00, 0x33,
     0x10, 0x26, 0x00, 0x01, 0x01,
     0x10, 0x45, 0x00, 0x07, 72, 111, 109, 101, 78, 101, 116,
     0x10, 0x03, 0x00, 0x02, 0x00, 0x20,
     0x10, 0x0F, 0x00, 0x02, 0x00, 0x04,
     0x10, 0x27, 0x00, 0x09, 115, 101, 99, 114, 101, 116, 49, 50, 51,
     0x10, 0x20, 0x00, 0x06, 255, 255, 255, 255, 255, 255, 0xFE]
    (by rfl) (by rfl)

/-! ## Claim C7 -/

theorem writeGo_step_fail (cmd : List Char) (N k a : Nat) (r : List Char)
    (env : List SerialLine) (sent : List (List Char)) :
    writeNdefGo cmd N (k + 1) a
      (SerialLine.line (S "TAP_CARD") :: SerialLine.line (S "WRITE_FAIL|" ++ r) :: env)
      sent
    = writeNdefGo cmd N k (a + 1) env (sent ++ [cmd]) := rfl

theorem writeGo_allFail (cmd : List Char) (N : Nat) (r : List Char) :
    ∀ k a sent, writeNdefGo cmd N k a
      ((List.replicate k [SerialLine.line (S "TAP_CARD"),
        SerialLine.line (S "WRITE_FAIL|" ++ r)]).flatten) sent
    = ({ success := false, error := some (S "Failed after " ++
          Nat.toDigits 10 N ++ S " attempts") },
       sent ++ List.replicate k cmd) := by
  intro k
  induction k with
  | zero =>
    intro a sent
    simp [writeNdefGo]
  | succ k ih =>
    intro a sent
    rw [List.replicate_succ]
    rw [show ((([SerialLine.line (S "TAP_CARD"),
        SerialLine.line (S "WRITE_FAIL|" ++ r)]) :: List.replicate k
          [SerialLine.line (S "TAP_CARD"),
           SerialLine.line (S "WRITE_FAIL|" ++ r)]).flatten)
      = SerialLine.line (S "TAP_CARD") :: SerialLine.line (S "WRITE_FAIL|" ++ r) ::
        ((List.replicate k [SerialLine.line (S "TAP_CARD"),
          SerialLine.line (S "WRITE_FAIL|" ++ r)]).flatten) by simp]
    rw [writeGo_step_fail, ih]
    simp [List.replicate_succ]

/-- **C7** — Retry termination: against a channel that answers every
attempt with TAP_CARD then WRITE_FAIL, `write_ndef` sends the write
command exactly `max_retries` times and then returns a failure whose error
reports the attempts as exhausted (`Failed after N attempts`); it never
loops beyond the bound. -/
theorem claim_C7_retry_termination (N : Nat) (data : List Nat) (r : List Char) :
    rfid_write_ndef true N data
      ((List.replicate N [SerialLine.line (S "TAP_CARD"),
        SerialLine.line (S "WRITE_FAIL|" ++ r)]).flatten)
    = ({ success := false, error := some (S "Failed after " ++
          Nat.toDigits 10 N ++ S " attempts") },
       List.replicate N (S "WRITE_RAW|" ++ bytes_to_hex data)) := by
  show writeNdefGo (S "WRITE_RAW|" ++ bytes_to_hex data) N N 1 _ [] = _
  rw [writeGo_allFail]
  rw [List.nil_append]

/-! ## Claim C8 -/

theorem writeGo_skipFails (cmd : List Char) (N : Nat) (r : List Char) :
    ∀ k rem a sent env, writeNdefGo cmd N (k + (rem + 1)) a
      ((List.replicate k [SerialLine.line (S "TAP_CARD"),
        SerialLine.line (S "WRITE_FAIL|" ++ r)]).flatten ++ env) sent
    = writeNdefGo cmd N (rem + 1) (a + k) env (sent ++ List.replicate k cmd) := by
  intro k
  induction k with
  | zero =>
    intro rem a sent env
    simp
  | succ k ih =>
    intro rem a sent env
    rw [List.replicate_succ]
    rw [show ((([SerialLine.line (S "TAP_CARD"),
        SerialLine.line (S "WRITE_FAIL|" ++ r)]) :: List.replicate k
          [SerialLine.line (S "TAP_CARD"),
           SerialLine.line (S "WRITE_FAIL|" ++ r)]).flatten ++ env)
      = SerialLine.line (S "TAP_CARD") :: SerialLine.line (S "WRITE_FAIL|" ++ r) ::
        ((List.replicate k [SerialLine.line (S "TAP_CARD"),
          SerialLine.line (S "WRITE_FAIL|" ++ r)]).flatten ++ env) by simp]
    rw [show k + 1 + (rem + 1) = (k + (rem + 1)) + 1 by omega]
    rw [writeGo_step_fail, ih]
    rw [show a + 1 + k = a + (k + 1) by omega]
    rw [show sent ++ [cmd] ++ List.replicate k cmd
      = sent ++ List.replicate (k + 1) cmd by simp [List.replicate_succ]]

theorem writeGo_step_dup (cmd : List Char) (N rem a : Nat) (u : List Char)
    (env : List SerialLine) (sent : List (List Char)) :
    writeNdefGo cmd N (rem + 1) a
      (SerialLine.line (S "TAP_CARD") ::
       SerialLine.line (S "DUPLICATE|" ++ u) :: env) sent
    = ({ success := false, error := some (S "Tag already contains data"),
         duplicate := true, uid := some (pyStrip u) }, sent ++ [cmd]) := rfl

/-- **C8** — Duplicate flow: whenever the channel reports DUPLICATE after
the tap prompt on attempt `k+1` (after `k` earlier WRITE_FAIL attempts,
`k < max_retries`), `write_ndef` returns immediately with the duplicate
flag set and the uid carried by the DUPLICATE response (stripped), having
sent only the `k+1` write commands — in particular no ERASE command is
ever sent by the write path. -/
theorem claim_C8_duplicate_flow (N k : Nat) (hk : k < N) (data : List Nat)
    (r u : List Char) (rest : List SerialLine) :
    rfid_write_ndef true N data
      ((List.replicate k [SerialLine.line (S "TAP_CARD"),
        SerialLine.line (S "WRITE_FAIL|" ++ r)]).flatten ++
       SerialLine.line (S "TAP_CARD") ::
       SerialLine.line (S "DUPLICATE|" ++ u) :: rest)
    = ({ success := false, error := some (S "Tag already contains data"),
         duplicate := true, uid := some (pyStrip u) },
       List.replicate (k + 1) (S "WRITE_RAW|" ++ bytes_to_hex data))
    ∧ S "ERASE" ∉ List.replicate (k + 1) (S "WRITE_RAW|" ++ bytes_to_hex data) := by
  constructor
  · show writeNdefGo (S "WRITE_RAW|" ++ bytes_to_hex data) N N 1 _ [] = _
    obtain ⟨rem, hrem⟩ : ∃ rem, N = k + (rem + 1) := ⟨N - k - 1, by omega⟩
    rw [hrem, writeGo_skipFails, writeGo_step_dup, List.nil_append,
      ← List.replicate_succ']
  · intro hmem
    rw [List.mem_replicate] at hmem
    have h := hmem.2
    rw [show S "ERASE" = 'E' :: 'R' :: 'A' :: 'S' :: 'E' :: [] from rfl,
        show S "WRITE_RAW|" = 'W' :: S "RITE_RAW|" from rfl] at h
    rw [List.cons_append] at h
    injection h with h1 _
    exact absurd h1 (by decide)

theorem claim_C8_duplicate_flow_witness :
    1 < 3 ∧
    (rfid_write_ndef true 3 [171]
      ((List.replicate 1 [SerialLine.line (S "TAP_CARD"),
        SerialLine.line (S "WRITE_FAIL|" ++ S "x")]).flatten ++
       SerialLine.line (S "TAP_CARD") ::
       SerialLine.line (S "DUPLICATE|" ++ S "AB12") :: [])
    = ({ success := false, error := some (S "Tag already contains data"),
         duplicate := true, uid := some (pyStrip (S "AB12")) },
       List.replicate 2 (S "WRITE_RAW|" ++ bytes_to_hex [171]))
    ∧ S "ERASE" ∉ List.replicate 2 (S "WRITE_RAW|" ++ bytes_to_hex [171])) :=
  ⟨by decide, claim_C8_duplicate_flow 3 1 (by decide) [171] (S "x") (S "AB12") []⟩

/-! ## Claim C9 -/

theorem writeGo_step_timeout (cmd : List Char) (N k a : Nat)
    (env : List SerialLine) (sent : List (List Char)) :
    writeNdefGo cmd N (k + 1) a (SerialLine.timeout :: env) sent
    = writeNdefGo cmd N k (a + 1) env (sent ++ [cmd]) := rfl

theorem writeGo_allTimeout (cmd : List Char) (N : Nat) :
    ∀ k a sent, writeNdefGo cmd N k a (List.replicate k SerialLine.timeout) sent
    = ({ success := false, error := some (S "Failed after " ++
          Nat.toDigits 10 N ++ S " attempts") },
       sent ++ List.replicate k cmd) := by
  intro k
  induction k with
  | zero =>
    intro a sent
    simp [writeNdefGo]
  | succ k ih =>
    intro a sent
    rw [List.replicate_succ, writeGo_step_timeout, ih]
    simp [List.replicate_succ]

theorem phoneGo_step_none (N k a s : Nat) (env : List (Option PhoneResp)) :
    phoneWriteGo N (k + 1) a ((none : Option PhoneResp) :: env) s
    = phoneWriteGo N k (a + 1) env (s + 1) := rfl

theorem phoneGo_allNone (N : Nat) :
    ∀ k a s, phoneWriteGo N k a (List.replicate k (none : Option PhoneResp)) s
    = ({ success := false, error := some (S "Failed after " ++
          Nat.toDigits 10 N ++ S " attempts") }, s + k) := by
  intro k
  induction k with
  | zero =>
    intro a s
    simp [phoneWriteGo]
  | succ k ih =>
    intro a s
    rw [List.replicate_succ, phoneGo_step_none, ih]
    rw [show s + 1 + k = s + (k + 1) by omega]

/-- **C9** — Timeouts are retried only for writes: a serial write whose
waits all time out exhausts the whole attempt budget (N commands sent,
"Failed after N attempts"), and a timeout followed by a successful tap
and WRITE_OK succeeds on attempt 2; by contrast erase/read/lock/info on
the serial transport give up after a single timed-out wait (one command
sent, immediate failure), and likewise on the phone transport the write
retries through the budget while erase/read/lock/info report
"No response from phone" after one command. -/
theorem claim_C9_timeout_retry_policy :
    (∀ N data, rfid_write_ndef true N data (List.replicate N SerialLine.timeout)
      = ({ success := false, error := some (S "Failed after " ++
            Nat.toDigits 10 N ++ S " attempts") },
         List.replicate N (S "WRITE_RAW|" ++ bytes_to_hex data)))
  ∧ (∀ M data u rest, rfid_write_ndef true (M + 2) data
      (SerialLine.timeout :: SerialLine.line (S "TAP_CARD") ::
       SerialLine.line (S "WRITE_OK|" ++ u) :: rest)
      = ({ success := true, uid := some (pyStrip u), attempts := some 2,
           verified := some false },
         [S "WRITE_RAW|" ++ bytes_to_hex data,
          S "WRITE_RAW|" ++ bytes_to_hex data]))
  ∧ (∀ rest, rfid_erase_tag true (SerialLine.timeout :: rest)
      = ({ success := false, error := some [] }, [S "ERASE"]))
  ∧ (∀ rest, rfid_read_tag true (SerialLine.timeout :: rest)
      = ({ success := false, error := some [] }, [S "READ"]))
  ∧ (∀ rest, rfid_lock_tag true (SerialLine.timeout :: rest)
      = ({ success := false, error := some [] }, [S "LOCK"]))
  ∧ (∀ rest, rfid_get_tag_info true (SerialLine.timeout :: rest)
      = ({ success := false, error := some [] }, [S "INFO"]))
  ∧ (∀ N, phone_write_ndef true true N (List.replicate N (none : Option PhoneResp))
      = ({ success := false, error := some (S "Failed after " ++
            Nat.toDigits 10 N ++ S " attempts") }, N))
  ∧ (∀ rest, phone_erase_tag true ((none : Option PhoneResp) :: rest)
      = ({ success := false, error := some (S "No response from phone") }, 1))
  ∧ (∀ rest, phone_read_tag true ((none : Option PhoneResp) :: rest)
      = ({ success := false, error := some (S "No response from phone") }, 1))
  ∧ (∀ rest, phone_lock_tag true ((none : Option PhoneResp) :: rest)
      = ({ success := false, error := some (S "No response from phone") }, 1))
  ∧ (∀ rest, phone_get_tag_info true ((none : Option PhoneResp) :: rest)
      = ({ success := false, error := some (S "No response from phone") }, 1)) := by
  refine ⟨?_, ?_, ?_, ?_, ?_, ?_, ?_, ?_, ?_, ?_, ?_⟩
  · intro N data
    show writeNdefGo (S "WRITE_RAW|" ++ bytes_to_hex data) N N 1 _ [] = _
    rw [writeGo_allTimeout, List.nil_append]
  · intro M data u rest
    rfl
  · intro rest
    rfl
  · intro rest
    rfl
  · intro rest
    rfl
  · intro rest
    rfl
  · intro N
    show phoneWriteGo N N 1 _ 0 = _
    rw [phoneGo_allNone, Nat.zero_add]
  · intro rest
    rfl
  · intro rest
    rfl
  · intro rest
    rfl
  · intro rest
    rfl

/-! ## Claim C10 -/

/-- **C10** — Not-connected guards: every public tag operation on either
transport, invoked while the session is not connected, returns a failure
carrying an error message ("Not connected" on serial, "Phone not
connected" on the phone bridge) and sends nothing on the underlying
channel (no serial command, zero bus messages). -/
theorem claim_C10_not_connected_guards :
    (∀ N data env, rfid_write_ndef false N data env
      = ({ success := false, error := some (S "Not connected") }, []))
  ∧ (∀ env, rfid_erase_tag false env
      = ({ success := false, error := some (S "Not connected") }, []))
  ∧ (∀ env, rfid_read_tag false env
      = ({ success := false, error := some (S "Not connected") }, []))
  ∧ (∀ env, rfid_lock_tag false env
      = ({ success := false, error := some (S "Not connected") }, []))
  ∧ (∀ env, rfid_get_tag_info false env
      = ({ success := false, error := some (S "Not connected") }, []))
  ∧ (∀ ns N env, phone_write_ndef false ns N env
      = ({ success := false, error := some (S "Phone not connected") }, 0))
  ∧ (∀ env, phone_erase_tag false env
      = ({ success := false, error := some (S "Phone not connected") }, 0))
  ∧ (∀ env, phone_read_tag false env
      = ({ success := false, error := some (S "Phone not connected") }, 0))
  ∧ (∀ env, phone_lock_tag false env
      = ({ success := false, error := some (S "Phone not connected") }, 0))
  ∧ (∀ env, phone_get_tag_info false env
      = ({ success := false, error := some (S "Phone not connected") }, 0)) := by
  refine ⟨?_, ?_, ?_, ?_, ?_, ?_, ?_, ?_, ?_, ?_⟩
  · intro N data env
    rfl
  · intro env
    rfl
  · intro env
    rfl
  · intro env
    rfl
  · intro env
    rfl
  · intro ns N env
    rfl
  · intro env
    rfl
  · intro env
    rfl
  · intro env
    rfl
  · intro env
    rfl
